import Mathlib

set_option linter.unusedSectionVars false
set_option linter.unusedVariables false
set_option maxRecDepth 4000

/-!
Verification development for the SweetHome3D → OBJ exporter
(`sweethome3d/www/lib/objExporter.js`).

The exporter's mutable per-call state (vertex/normal/UV pools, face list,
material and texture maps, running 1-based indices) is embedded as the
record `ExpState α`, and every operation of the `OBJExporter` class that
the claims touch is embedded as a state-passing function, translated
line by line from the JavaScript source.

JavaScript numbers are modelled by an arbitrary `LinearOrderedField`
(instantiated at `ℚ` where theorems are evaluated on concrete inputs and
at `ℝ` where the source calls `Math.sqrt`/`Math.cos`/`Math.sin`).  `NaN`
has no counterpart in an ordered field; the `isNaN` guards of the source
are therefore vacuous in the model and are noted where they occur.  The
transcendental functions the source takes from `Math` are passed in as a
record `MathFns` so that the same definitions serve both instantiations.
-/

namespace OBJE

/-- The functions the exporter takes from JavaScript's `Math` object. -/
structure MathFns (α : Type) where
  cos : α → α
  sin : α → α
  sqrt : α → α

/-- `Math` over the reals: the intended reading of the source's floats. -/
noncomputable def realMath : MathFns ℝ :=
  ⟨Real.cos, Real.sin, Real.sqrt⟩

/-- An instantiation of `MathFns` over `ℚ`, used only to run parts of the
exporter that never consult `Math` (rooms, null elements, OBJ parsing) on
concrete inputs; every theorem stated over it quantifies over all
`MathFns` or concerns state components that do not depend on it. -/
def qMathFns : MathFns ℚ := ⟨fun _ => 0, fun _ => 0, fun _ => 0⟩

abbrev Vec3 (α : Type) := α × α × α
abbrev Vec2 (α : Type) := α × α

/-- Texture placement parameters (`parseTextureTransform` result shape). -/
structure TexTransform (α : Type) where
  xOffset : α
  yOffset : α
  angle : α
  scale : α
deriving DecidableEq

variable {α : Type} [LinearOrderedField α] [DecidableEq α]

/-- `{ xOffset: 0, yOffset: 0, angle: 0, scale: 1.0 }`. -/
def defaultTransform : TexTransform α := ⟨0, 0, 0, 1⟩

/-- A material record as stored into `this.materials`.  The JavaScript
objects sometimes omit `textureTransform`; consumers read it through
`|| {xOffset:0,...}`, so the omitted field is modelled by
`defaultTransform`. -/
structure Material (α : Type) where
  name : String
  ambient : Vec3 α
  diffuse : Vec3 α
  specular : Vec3 α
  shininess : α
  transparency : α
  texture : Option String
  textureTransform : TexTransform α
deriving DecidableEq

/-- An entry of the map produced by `parseMTLTextures`. -/
structure MtlData (α : Type) where
  texture : Option String
  diffuse : Vec3 α
  ambient : Vec3 α
  specular : Vec3 α
  shininess : α
deriving DecidableEq

/-- A face as pushed onto `this.faces`: three vertex indices, three
optional normal indices, three optional texture-coordinate indices and
the material active at push time.  Indices are integers because
`integrateOBJContent` resolves negative (relative) OBJ references. -/
structure Face where
  v : ℤ × ℤ × ℤ
  n : Option ℤ × Option ℤ × Option ℤ
  t : Option ℤ × Option ℤ × Option ℤ
  material : Option String
deriving DecidableEq

/-- The exporter's per-call state (the fields set in the constructor and
in `reset`).  JavaScript `Map`s are insertion-ordered; they are modelled
as association lists ordered by insertion. -/
structure ExpState (α : Type) where
  vertices : List (Vec3 α)
  normals : List (Vec3 α)
  texCoords : List (Vec2 α)
  faces : List Face
  materials : List (String × Material α)
  textures : List (String × List Nat)
  currentMaterial : Option String
  vertexIndex : Nat
  normalIndex : Nat
  texCoordIndex : Nat
  defaultMaterials : List (String × MtlData α)
deriving DecidableEq

/-- Fresh state, as set up by the constructor (with no
`DEFAULT_MTL_CONTENT` global defined, so `defaultMaterials` is empty). -/
def initState : ExpState α :=
  ⟨[], [], [], [], [], [], none, 1, 1, 1, []⟩

/-- `reset()`: clears everything except `defaultMaterials` (which the
source's `reset` does not touch). -/
def reset (s : ExpState α) : ExpState α :=
  { s with vertices := [], normals := [], texCoords := [], faces := [],
           materials := [], textures := [], currentMaterial := none,
           vertexIndex := 1, normalIndex := 1, texCoordIndex := 1 }

/-- `Map.prototype.has`. -/
def mapHas (m : List (String × β)) (k : String) : Bool :=
  m.any (fun p => p.1 == k)

/-- `Map.prototype.set`: updates in place if the key exists (keeping its
insertion position), otherwise appends. -/
def mapSet (m : List (String × β)) (k : String) (v : β) : List (String × β) :=
  if mapHas m k then m.map (fun p => if p.1 == k then (k, v) else p)
  else m ++ [(k, v)]

/-- `Map.prototype.get`. -/
def mapGet (m : List (String × β)) (k : String) : Option β :=
  (m.find? (fun p => p.1 == k)).map (·.2)

/-- The `1e-6` threshold of `addNormal`'s zero-length check. -/
def epsSmall : α := 1 / 1000000

/-- `addVertex(v)`: always appends (the dedup hook is unused) and returns
`this.vertexIndex++`. -/
def addVertex (v : Vec3 α) (s : ExpState α) : Nat × ExpState α :=
  (s.vertexIndex,
   { s with vertices := s.vertices ++ [v], vertexIndex := s.vertexIndex + 1 })

/-- `addNormal(n)`: rejects near-zero vectors with a `null` index and
otherwise appends, returning `this.normalIndex++`.  (The source also
rejects `NaN` components; `NaN` does not exist in an ordered field.) -/
def addNormal (n : Vec3 α) (s : ExpState α) : Option Nat × ExpState α :=
  if |n.1| < epsSmall ∧ |n.2.1| < epsSmall ∧ |n.2.2| < epsSmall then
    (none, s)
  else
    (some s.normalIndex,
     { s with normals := s.normals ++ [n], normalIndex := s.normalIndex + 1 })

/-- `addTexCoord(u, v)`. -/
def addTexCoord (u v : α) (s : ExpState α) : Nat × ExpState α :=
  (s.texCoordIndex,
   { s with texCoords := s.texCoords ++ [(u, v)],
            texCoordIndex := s.texCoordIndex + 1 })

/-- The default diffuse/specular/shininess chosen by `setMaterial` from
the material-name prefix. -/
def defaultMaterialFor (name : String) : Vec3 α × Vec3 α × α :=
  if name.startsWith "default_wall" then
    ((95/100, 93/100, 88/100), (1/10, 1/10, 1/10), 10)
  else if name.startsWith "default_floor" then
    ((85/100, 80/100, 70/100), (2/10, 2/10, 2/10), 20)
  else if name.startsWith "default_ceiling" then
    ((98/100, 98/100, 98/100), (5/100, 5/100, 5/100), 5)
  else
    ((8/10, 8/10, 8/10), (3/10, 3/10, 3/10), 30)

/-- The lazily created default material record of `setMaterial`. -/
def mkDefaultMaterial (name : String) : Material α :=
  let d := defaultMaterialFor (α := α) name
  ⟨name, (d.1.1 * (2/10), d.1.2.1 * (2/10), d.1.2.2 * (2/10)),
   d.1, d.2.1, d.2.2, 1, none, defaultTransform⟩

/-- `setMaterial(name)`: lazily creates a default material record for an
unknown name, then makes it current.  (Both source branches leave every
field except `materials` and `currentMaterial` unchanged, so the update
is written on those two fields.) -/
def setMaterial (name : String) (s : ExpState α) : ExpState α :=
  { s with
    materials :=
      if mapHas s.materials name then s.materials
      else mapSet s.materials name (mkDefaultMaterial name),
    currentMaterial := some name }

/-- JavaScript truncation toward zero, used to model the `%` operator. -/
def jsTrunc [FloorRing α] (x : α) : ℤ :=
  if 0 ≤ x then ⌊x⌋ else ⌈x⌉

/-- JavaScript `x % 1.0`. -/
def jsMod1 [FloorRing α] (x : α) : α :=
  x - (jsTrunc x : α)

/-- The per-vertex body of `generateTriangleUVs`: planar projection
(X/Z for near-horizontal triangles, X/Y when the Y variance exceeds 0.1),
then scale, optional rotation, offset and wrap into `[0,1)`. -/
def genUV [FloorRing α] (M : MathFns α) (tt : TexTransform α) (yVar : α)
    (v : Vec3 α) : Vec2 α :=
  let u0 := v.1
  let w0 := if yVar > 1/10 then v.2.1 else v.2.2
  let u1 := u0 / tt.scale
  let w1 := w0 / tt.scale
  let uw :=
    if tt.angle ≠ 0 then
      (u1 * M.cos tt.angle - w1 * M.sin tt.angle,
       u1 * M.sin tt.angle + w1 * M.cos tt.angle)
    else (u1, w1)
  let u3 := jsMod1 (uw.1 + tt.xOffset)
  let w3 := jsMod1 (uw.2 + tt.yOffset)
  (if u3 < 0 then u3 + 1 else u3, if w3 < 0 then w3 + 1 else w3)

/-- `generateTriangleUVs(vertices, textureTransform)`. -/
def generateTriangleUVs [FloorRing α] (M : MathFns α) (v1 v2 v3 : Vec3 α)
    (tt : TexTransform α) : Vec2 α × Vec2 α × Vec2 α :=
  let yVar := |v1.2.1 - v2.2.1| + |v2.2.1 - v3.2.1|
  (genUV M tt yVar v1, genUV M tt yVar v2, genUV M tt yVar v3)

/-- `addTriangle(v1, v2, v3, normal)`: three vertex pushes, one normal
attempt, one face with the same (possibly `null`) normal index in all
three slots and no texture coordinates. -/
def addTriangle (v1 v2 v3 n : Vec3 α) (s : ExpState α) : ExpState α :=
  let r1 := addVertex v1 s
  let r2 := addVertex v2 r1.2
  let r3 := addVertex v3 r2.2
  let rn := addNormal n r3.2
  { rn.2 with faces := rn.2.faces ++
      [⟨((r1.1 : ℤ), (r2.1 : ℤ), (r3.1 : ℤ)),
        (rn.1.map Int.ofNat, rn.1.map Int.ofNat, rn.1.map Int.ofNat),
        (none, none, none), rn.2.currentMaterial⟩] }

/-- `addTriangleWithTexture`: like `addTriangle` but additionally
generates and appends three texture coordinates. -/
def addTriangleWithTexture [FloorRing α] (M : MathFns α) (v1 v2 v3 n : Vec3 α)
    (tt : TexTransform α) (s : ExpState α) : ExpState α :=
  let r1 := addVertex v1 s
  let r2 := addVertex v2 r1.2
  let r3 := addVertex v3 r2.2
  let rn := addNormal n r3.2
  let uvs := generateTriangleUVs M v1 v2 v3 tt
  let t1 := addTexCoord uvs.1.1 uvs.1.2 rn.2
  let t2 := addTexCoord uvs.2.1.1 uvs.2.1.2 t1.2
  let t3 := addTexCoord uvs.2.2.1 uvs.2.2.2 t2.2
  { t3.2 with faces := t3.2.faces ++
      [⟨((r1.1 : ℤ), (r2.1 : ℤ), (r3.1 : ℤ)),
        (rn.1.map Int.ofNat, rn.1.map Int.ofNat, rn.1.map Int.ofNat),
        (some (t1.1 : ℤ), some (t2.1 : ℤ), some (t3.1 : ℤ)),
        t3.2.currentMaterial⟩] }

/-- `addQuad(v1..v4, normal)`: two triangles sharing the `v1`–`v3`
diagonal. -/
def addQuad (v1 v2 v3 v4 n : Vec3 α) (s : ExpState α) : ExpState α :=
  addTriangle v1 v3 v4 n (addTriangle v1 v2 v3 n s)

/-- `addQuadWithTexture`. -/
def addQuadWithTexture [FloorRing α] (M : MathFns α) (v1 v2 v3 v4 n : Vec3 α)
    (tt : TexTransform α) (s : ExpState α) : ExpState α :=
  addTriangleWithTexture M v1 v3 v4 n tt
    (addTriangleWithTexture M v1 v2 v3 n tt s)

/-- Lift a 2D plan point to elevation `e` (`[p[0], elevation, p[1]]`). -/
def to3 (e : α) (p : Vec2 α) : Vec3 α := (p.1, e, p.2)

/-- `triangulatePolygon(points, elevation, flipNormal)`: triangle passed
through, quad split along the `0`–`2` diagonal, larger polygons fanned
from vertex 0; `flipNormal` reverses the winding case by case exactly as
in the source. -/
def triangulatePolygon (pts : List (Vec2 α)) (e : α) (flip : Bool) :
    List (Vec3 α × Vec3 α × Vec3 α) :=
  let P : Nat → Vec3 α := fun i => to3 e (pts.getD i (0, 0))
  if pts.length = 3 then
    [if flip then (P 2, P 1, P 0) else (P 0, P 1, P 2)]
  else if pts.length = 4 then
    if flip then [(P 0, P 2, P 1), (P 0, P 3, P 2)]
    else [(P 0, P 1, P 2), (P 0, P 2, P 3)]
  else
    (List.range (pts.length - 2)).map fun i =>
      if flip then (P 0, P (i + 2), P (i + 1)) else (P 0, P (i + 1), P (i + 2))

/-! ### Texture management (`fetchTextureData` is an external fetch; a
successfully fetched texture is modelled as its binary payload, a list of
bytes, already in hand). -/

/-- `getTextureExtension(url)`: the `\.(jpg|jpeg|png|bmp|gif)$/i` match,
defaulting to `.jpg`. -/
def getTextureExtension (url : String) : String :=
  let low := url.toLower
  if low.endsWith ".jpg" then ".jpg"
  else if low.endsWith ".jpeg" then ".jpeg"
  else if low.endsWith ".png" then ".png"
  else if low.endsWith ".bmp" then ".bmp"
  else if low.endsWith ".gif" then ".gif"
  else ".jpg"

/-- `generateUniqueTextureName`: the source loops `name`, `name_1`,
`name_2`, … until the name is free.  Since `textures` holds finitely many
names, some candidate among the first `textures.length + 1` suffixed
names is free; the loop is modelled by picking the first free candidate
(the `getD` fallback is unreachable). -/
def generateUniqueTextureName (base ext : String) (s : ExpState α) : String :=
  let cands := (base ++ ext) ::
    (List.range (s.textures.length + 1)).map
      (fun k => base ++ "_" ++ toString (k + 1) ++ ext)
  (cands.find? (fun nm => !mapHas s.textures nm)).getD (base ++ ext)

/-- `findDuplicateTexture(data)`: scans stored textures in insertion
order, comparing byte length first and then each byte; that loop returns
the first entry whose payload is structurally equal to `data`. -/
def findDuplicateTexture (data : List Nat) (s : ExpState α) : Option String :=
  (s.textures.find? (fun p => p.2 == data)).map (·.1)

/-- `addTexture(baseName, textureURL, textureData)`: duplicate payloads
are reused under their existing name, otherwise the payload is stored
under a freshly generated unique name. -/
def addTexture (base url : String) (data : List Nat) (s : ExpState α) :
    String × ExpState α :=
  match findDuplicateTexture data s with
  | some nm => (nm, s)
  | none =>
    let nm := generateUniqueTextureName base (getTextureExtension url) s
    (nm, { s with textures := mapSet s.textures nm data })

/-! ### Colour materials and wall/room material resolution -/

/-- One colour channel of a packed `0xRRGGBB` integer, as the source
computes it: `(c >> shift & 0xFF) / 255.0`. -/
def channel (c : Nat) (shift : Nat) : α :=
  ((c / 2 ^ shift) % 256 : Nat) / 255

/-- The deterministic colour-material name
`` `${prefix}${Math.round(r*255)}_${Math.round(g*255)}_${Math.round(b*255)}` ``. -/
def colorName [FloorRing α] (pre : String) (c : Nat) : String :=
  let r : α := channel c 16
  let g : α := channel c 8
  let b : α := channel c 0
  pre ++ toString (round (r * 255)) ++ "_" ++ toString (round (g * 255))
      ++ "_" ++ toString (round (b * 255))

/-- The shared flat-colour branch of `getWallMaterial`,
`getWallRightSideMaterial`, `getRoomFloorMaterial` and
`getRoomCeilingMaterial`: build the name from the channels and create the
record if absent. -/
def colorMaterialE [FloorRing α] (pre : String) (c : Nat) (spec : Vec3 α)
    (shin : α) (s : ExpState α) : String × ExpState α :=
  let r : α := channel c 16
  let g : α := channel c 8
  let b : α := channel c 0
  let nm := colorName (α := α) pre c
  if mapHas s.materials nm then (nm, s)
  else
    let mat : Material α :=
      ⟨nm, (r * (2/10), g * (2/10), b * (2/10)), (r, g, b), spec, shin, 1,
       none, defaultTransform⟩
    (nm, { s with materials := mapSet s.materials nm mat })

/-- A texture reference on a wall or room surface whose image fetch
succeeds; a failed fetch or an absent texture is `none` on the owning
element (the source catches the fetch error and falls through to the
colour branch). -/
structure TextureSpec (α : Type) where
  url : String
  data : List Nat
  transform : TexTransform α
deriving DecidableEq

/-- A wall as read through the duck-typed accessors; a missing accessor
yields the documented default, so defaults are baked into the fields. -/
structure Wall (α : Type) where
  xStart : α
  yStart : α
  xEnd : α
  yEnd : α
  height : α
  thickness : α
  leftColor : Option Nat
  rightColor : Option Nat
  leftTexture : Option (TextureSpec α)
  rightTexture : Option (TextureSpec α)
deriving DecidableEq

/-- Register a textured surface material: store the fetched texture,
then create the `..._textured` record pointing at it. -/
def texturedMaterialE (texBase matName : String) (ts : TextureSpec α)
    (spec : Vec3 α) (shin : α) (s : ExpState α) : String × ExpState α :=
  let r := addTexture texBase ts.url ts.data s
  let mat : Material α :=
    ⟨matName, (2/10, 2/10, 2/10), (8/10, 8/10, 8/10), spec, shin, 1,
     some r.1, ts.transform⟩
  (matName, { r.2 with materials := mapSet r.2.materials matName mat })

/-- `getWallMaterial(wall, wallIndex)`: texture first (when its fetch
succeeds), then flat colour (JavaScript truthiness: a colour of `0` is
falsy and skipped), else `default_wall`. -/
def getWallMaterialE [FloorRing α] (w : Wall α) (i : Nat) (s : ExpState α) :
    String × ExpState α :=
  match w.leftTexture with
  | some ts =>
    texturedMaterialE ("wall_" ++ toString i ++ "_left")
      ("wall_" ++ toString i ++ "_left_textured") ts (3/10, 3/10, 3/10) 20 s
  | none =>
    match w.leftColor with
    | some c =>
      if c = 0 then ("default_wall", s)
      else colorMaterialE "wall_" c (3/10, 3/10, 3/10) 20 s
    | none => ("default_wall", s)

/-- `getWallRightSideMaterial`: like the left side but with the
`wall_right_` colour-name prefix, falling back to the left-side material
when the right side specifies nothing. -/
def getWallRightSideMaterialE [FloorRing α] (w : Wall α) (i : Nat)
    (s : ExpState α) : String × ExpState α :=
  match w.rightTexture with
  | some ts =>
    texturedMaterialE ("wall_" ++ toString i ++ "_right")
      ("wall_" ++ toString i ++ "_right_textured") ts (3/10, 3/10, 3/10) 20 s
  | none =>
    match w.rightColor with
    | some c =>
      if c = 0 then getWallMaterialE w i s
      else colorMaterialE "wall_right_" c (3/10, 3/10, 3/10) 20 s
    | none => getWallMaterialE w i s

/-- A room as read through the accessors.  Floor/ceiling textures are not
modelled (their resolution requires a successful external fetch); the
embedded `exportRoom` is the colour/default path the source takes for
rooms without textures. -/
structure Room (α : Type) where
  points : List (Vec2 α)
  name : String
  floorColor : Option Nat
  ceilingColor : Option Nat
deriving DecidableEq

/-- `getRoomFloorMaterial(room)`. -/
def getRoomFloorMaterialE [FloorRing α] (room : Room α) (s : ExpState α) :
    String × ExpState α :=
  match room.floorColor with
  | some c =>
    if c = 0 then ("default_floor", s)
    else colorMaterialE "floor_" c (1/10, 1/10, 1/10) 10 s
  | none => ("default_floor", s)

/-- `getRoomCeilingMaterial(room)`. -/
def getRoomCeilingMaterialE [FloorRing α] (room : Room α) (s : ExpState α) :
    String × ExpState α :=
  match room.ceilingColor with
  | some c =>
    if c = 0 then ("default_ceiling", s)
    else colorMaterialE "ceiling_" c (1/10, 1/10, 1/10) 10 s
  | none => ("default_ceiling", s)

/-! ### Wall and room generators -/

/-- Add one wall quad, textured or not according to the resolved
material's texture, exactly as each `hasTexture ? addQuadWithTexture :
addQuad` site in `exportWall`. -/
def wallQuad [FloorRing α] (M : MathFns α) (hasTex : Bool)
    (tt : TexTransform α) (v1 v2 v3 v4 n : Vec3 α) (s : ExpState α) :
    ExpState α :=
  if hasTex then addQuadWithTexture M v1 v2 v3 v4 n tt s
  else addQuad v1 v2 v3 v4 n s

/-- The wall's unit perpendicular, x component:
`nx = -dy / Math.sqrt(dx*dx + dy*dy)`. -/
def wallNX (M : MathFns α) (w : Wall α) : α :=
  -(w.yEnd - w.yStart) /
    M.sqrt ((w.xEnd - w.xStart) * (w.xEnd - w.xStart) +
      (w.yEnd - w.yStart) * (w.yEnd - w.yStart))

/-- The wall's unit perpendicular, y component: `ny = dx / length`. -/
def wallNY (M : MathFns α) (w : Wall α) : α :=
  (w.xEnd - w.xStart) /
    M.sqrt ((w.xEnd - w.xStart) * (w.xEnd - w.xStart) +
      (w.yEnd - w.yStart) * (w.yEnd - w.yStart))

/-- The geometry-emitting tail of `exportWall`, after both side
materials have been resolved: five quads — front (left material), back
(right material), top and the two end caps (left material). -/
def wallQuads [FloorRing α] (M : MathFns α) (w : Wall α)
    (lName rName : String) (hasLT hasRT : Bool) (ltt rtt : TexTransform α)
    (s : ExpState α) : ExpState α :=
  let nx := wallNX M w
  let ny := wallNY M w
  let t2 := w.thickness / 2
  let v1 : Vec3 α := (w.xStart - nx * t2, 0, w.yStart - ny * t2)
  let v2 : Vec3 α := (w.xEnd - nx * t2, 0, w.yEnd - ny * t2)
  let v3 : Vec3 α := (w.xEnd - nx * t2, w.height, w.yEnd - ny * t2)
  let v4 : Vec3 α := (w.xStart - nx * t2, w.height, w.yStart - ny * t2)
  let v5 : Vec3 α := (w.xStart + nx * t2, 0, w.yStart + ny * t2)
  let v6 : Vec3 α := (w.xEnd + nx * t2, 0, w.yEnd + ny * t2)
  let v7 : Vec3 α := (w.xEnd + nx * t2, w.height, w.yEnd + ny * t2)
  let v8 : Vec3 α := (w.xStart + nx * t2, w.height, w.yStart + ny * t2)
  let s3 := setMaterial lName s
  let s4 := wallQuad M hasLT ltt v1 v2 v3 v4 (0, 0, -1) s3
  let s5 := setMaterial rName s4
  let s6 := wallQuad M hasRT rtt v6 v5 v8 v7 (0, 0, 1) s5
  let s7 := setMaterial lName s6
  let s8 := wallQuad M hasLT ltt v4 v3 v7 v8 (0, 1, 0) s7
  let s9 := wallQuad M hasLT ltt v5 v1 v4 v8 (-nx, 0, -ny) s8
  wallQuad M hasLT ltt v2 v6 v7 v3 (nx, 0, ny) s9

/-- `exportWall(wall, name)`: degenerate walls (start = end) are skipped
entirely; otherwise both side materials are resolved (looking up texture
presence and transform on the stored records) and the five quads are
emitted. -/
def exportWall [FloorRing α] (M : MathFns α) (i : Nat) (w : Wall α)
    (s : ExpState α) : ExpState α :=
  if w.xStart = w.xEnd ∧ w.yStart = w.yEnd then s
  else
    let rl := getWallMaterialE w i s
    let rr := getWallRightSideMaterialE w i rl.2
    let leftMat := mapGet rr.2.materials rl.1
    let rightMat := mapGet rr.2.materials rr.1
    wallQuads M w rl.1 rr.1 ((leftMat.bind (·.texture)).isSome)
      ((rightMat.bind (·.texture)).isSome)
      ((leftMat.map (·.textureTransform)).getD defaultTransform)
      ((rightMat.map (·.textureTransform)).getD defaultTransform) rr.2

/-- `exportRoom(room, name)` for rooms without floor/ceiling textures:
skip degenerate polygons, then floor triangles at elevation 0 with
normal `(0,-1,0)` and flipped winding, then ceiling triangles at the
fixed height 250 with normal `(0,1,0)` and unflipped winding. -/
def exportRoom [FloorRing α] (room : Room α) (s : ExpState α) : ExpState α :=
  if room.points.length < 3 then s
  else
    let rf := getRoomFloorMaterialE room s
    let s1 := setMaterial rf.1 rf.2
    let s2 := (triangulatePolygon room.points 0 true).foldl
      (fun st t => addTriangle t.1 t.2.1 t.2.2 (0, -1, 0) st) s1
    let rc := getRoomCeilingMaterialE room s2
    let s3 := setMaterial rc.1 rc.2
    (triangulatePolygon room.points 250 false).foldl
      (fun st t => addTriangle t.1 t.2.1 t.2.2 (0, 1, 0) st) s3

/-! ### OBJ content and `integrateOBJContent`

OBJ text is line oriented; `integrateOBJContent` trims each line and
dispatches on its keyword prefix.  A line is modelled by the result of
that lexical step: an `ObjLine` value.  Face words model
`part.split('/')` with `parseInt` applied: the vertex reference and
optional `vt`/`vn` references (an empty component is `none`). -/

/-- One `a/b/c` word of an `f` line, after `parseInt`. -/
structure FaceWord where
  v : ℤ
  vt : Option ℤ
  vn : Option ℤ
deriving DecidableEq

/-- One trimmed line of OBJ text. -/
inductive ObjLine (α : Type) where
  | v (x y z : α)
  | vn (x y z : α)
  | vt (u w : α)
  | f (words : List FaceWord)
  | usemtl (m : String)
  | mtllib (m : String)
  | comment (s : String)
  | blank
deriving DecidableEq

/-- The context fixed on entry to `integrateOBJContent`'s second pass:
the centring/scaling derived from the first-pass bounds, the placement
transform (`cos`/`sin` of the yaw, target position, elevation), the
index offsets captured at entry, the parsed MTL map and the piece's base
material name. -/
structure IntCtx (α : Type) where
  centerX : α
  centerY : α
  centerZ : α
  scaleX : α
  scaleY : α
  scaleZ : α
  cosA : α
  sinA : α
  px : α
  py : α
  elev : α
  vOff : Nat
  nOff : Nat
  tOff : Nat
  mtlMap : List (String × MtlData α)
  baseMaterial : String

/-- Resolve one OBJ index: positive indices are offset by the captured
pool offset, non-positive ones are relative to the current running
index. -/
def resolveIdx (idx : ℤ) (off : Nat) (cur : Nat) : ℤ :=
  if idx > 0 then idx + off else (cur : ℤ) + idx

/-- Resolve a face word against the current state, as the
`absoluteV`/`absoluteVt`/`absoluteVn` computation. -/
def resolveWord (ctx : IntCtx α) (s : ExpState α) (w : FaceWord) :
    ℤ × Option ℤ × Option ℤ :=
  (resolveIdx w.v ctx.vOff s.vertexIndex,
   w.vt.map (fun i => resolveIdx i ctx.tOff s.texCoordIndex),
   w.vn.map (fun i => resolveIdx i ctx.nOff s.normalIndex))

/-- Assemble a face pushed by the `f` branch from three resolved words. -/
def mkFaceFrom (cur : Option String) (a b c : ℤ × Option ℤ × Option ℤ) :
    Face :=
  ⟨(a.1, b.1, c.1), (a.2.2, b.2.2, c.2.2), (a.2.1, b.2.1, c.2.1), cur⟩

/-- `string.replace(/[^a-zA-Z0-9_]/g, '')`. -/
def sanitizeName (s : String) : String :=
  ⟨s.data.filter (fun c => c.isAlphanum || c == '_')⟩

/-- Case-insensitive map lookup: direct `get` first, then a scan
comparing lower-cased keys (the `usemtl` fallback loops). -/
def lookupCI (m : List (String × β)) (k : String) : Option β :=
  match mapGet m k with
  | some v => some v
  | none => (m.find? (fun p => p.1.toLower == k.toLower)).map (·.2)

/-- One iteration of `integrateOBJContent`'s second pass. -/
def objStep [FloorRing α] (ctx : IntCtx α) (s : ExpState α)
    (line : ObjLine α) : ExpState α :=
  match line with
  | .usemtl m =>
    let mtlData : Option (MtlData α) :=
      match lookupCI ctx.mtlMap m with
      | some d => some d
      | none => lookupCI s.defaultMaterials m
    (match mtlData with
     | some d =>
       let spec := ctx.baseMaterial ++ "_" ++ sanitizeName m
       let mat : Material α :=
         ⟨spec, d.ambient, d.diffuse, d.specular,
          if d.shininess = 0 then 30 else d.shininess, 1, d.texture,
          defaultTransform⟩
       { s with
         materials :=
           if mapHas s.materials spec then s.materials
           else mapSet s.materials spec mat,
         currentMaterial := some spec }
     | none => setMaterial ctx.baseMaterial s)
  | .v vx vy vz =>
    let vx1 := (vx - ctx.centerX) * ctx.scaleX
    let vy1 := (vy - ctx.centerY) * ctx.scaleY
    let vz1 := (vz - ctx.centerZ) * ctx.scaleZ
    let rotX := vx1 * ctx.cosA - vz1 * ctx.sinA
    let rotZ := vx1 * ctx.sinA + vz1 * ctx.cosA
    { s with
      vertices := s.vertices ++ [(ctx.px + rotX, ctx.elev + vy1, ctx.py + rotZ)],
      vertexIndex := s.vertexIndex + 1 }
  | .vn nx ny nz =>
    let rotNx := nx * ctx.cosA - nz * ctx.sinA
    let rotNz := nx * ctx.sinA + nz * ctx.cosA
    { s with normals := s.normals ++ [(rotNx, ny, rotNz)],
             normalIndex := s.normalIndex + 1 }
  | .vt u w =>
    { s with texCoords := s.texCoords ++ [(u, w)],
             texCoordIndex := s.texCoordIndex + 1 }
  | .f words =>
    let rws := words.map (resolveWord ctx s)
    let d0 : ℤ × Option ℤ × Option ℤ := (0, none, none)
    let newFaces : List Face :=
      if rws.length = 3 then
        [mkFaceFrom s.currentMaterial (rws.getD 0 d0) (rws.getD 1 d0)
          (rws.getD 2 d0)]
      else if rws.length = 4 then
        [mkFaceFrom s.currentMaterial (rws.getD 0 d0) (rws.getD 1 d0)
          (rws.getD 2 d0),
         mkFaceFrom s.currentMaterial (rws.getD 0 d0) (rws.getD 2 d0)
          (rws.getD 3 d0)]
      else if rws.length > 4 then
        (List.range (rws.length - 2)).map fun i =>
          mkFaceFrom s.currentMaterial (rws.getD 0 d0) (rws.getD (i + 1) d0)
            (rws.getD (i + 2) d0)
      else []
    { s with faces := s.faces ++ newFaces }
  | _ => s

/-- The `v` lines of a content, in order (first bounds pass input). -/
def vLinesOf (lines : List (ObjLine α)) : List (Vec3 α) :=
  lines.filterMap fun l =>
    match l with
    | .v x y z => some (x, y, z)
    | _ => none

/-- First-pass bounds: `min`/`max` folds over the `v` lines.  `none` when
there is no `v` line (the source then keeps the `±Infinity` seeds; no
vertex is transformed in that case, so the value is never consumed). -/
def objBounds (lines : List (ObjLine α)) :
    Option ((α × α) × (α × α) × (α × α)) :=
  match vLinesOf lines with
  | [] => none
  | v0 :: rest =>
    some (rest.foldl
      (fun b v =>
        ((min b.1.1 v.1, max b.1.2 v.1),
         (min b.2.1.1 v.2.1, max b.2.1.2 v.2.1),
         (min b.2.2.1 v.2.2, max b.2.2.2 v.2.2)))
      ((v0.1, v0.1), (v0.2.1, v0.2.1), (v0.2.2, v0.2.2)))

/-- Geometric placement data of a furniture piece. -/
structure PieceGeom (α : Type) where
  x : α
  y : α
  elevation : α
  angle : α
  width : α
  depth : α
  height : α
deriving DecidableEq

/-- Build the second-pass context from the whole content and the piece:
model centre (bottom kept at `minY`), per-axis scale to the target
dimensions (1 when the model extent is not positive), yaw rotation and
the captured offsets `this.vertexIndex - 1` etc. -/
def mkIntCtx [FloorRing α] (M : MathFns α) (allLines : List (ObjLine α))
    (p : PieceGeom α) (mtlMap : List (String × MtlData α)) (base : String)
    (s : ExpState α) : IntCtx α :=
  let b := (objBounds allLines).getD ((0, 0), (0, 0), (0, 0))
  let mw := b.1.2 - b.1.1
  let mh := b.2.1.2 - b.2.1.1
  let md := b.2.2.2 - b.2.2.1
  { centerX := (b.1.1 + b.1.2) / 2
    centerY := b.2.1.1
    centerZ := (b.2.2.1 + b.2.2.2) / 2
    scaleX := if mw > 0 then p.width / mw else 1
    scaleY := if mh > 0 then p.height / mh else 1
    scaleZ := if md > 0 then p.depth / md else 1
    cosA := M.cos p.angle
    sinA := M.sin p.angle
    px := p.x
    py := p.y
    elev := p.elevation
    vOff := s.vertexIndex - 1
    nOff := s.normalIndex - 1
    tOff := s.texCoordIndex - 1
    mtlMap := mtlMap
    baseMaterial := base }

/-- The pre-loop part of `integrateOBJContent`: register the
colour-override material (the source checks `!== null && !== undefined`,
so a zero colour does count here) and make the base material current. -/
def integrateSetup (colorOv : Option Nat) (base : String) (s : ExpState α) :
    ExpState α :=
  let s1 :=
    match colorOv with
    | some c =>
      let r : α := channel c 16
      let g : α := channel c 8
      let b : α := channel c 0
      let mat : Material α :=
        ⟨base, (r * (2/10), g * (2/10), b * (2/10)), (r, g, b),
         (3/10, 3/10, 3/10), 30, 1, none, defaultTransform⟩
      { s with materials := mapSet s.materials base mat }
    | none => s
  setMaterial base s1

/-- `integrateOBJContent`, with the second pass cut off after `k` lines:
the bounds pass reads the whole content, the setup runs, then only the
first `k` lines of the second pass execute.  `k = lines.length` is the
complete run; a smaller `k` is the state left behind when a JavaScript
exception interrupts the statement-by-statement second pass (mutations
of already-processed lines stay committed — there is no staging buffer
or rollback in the source). -/
def integrateUpTo [FloorRing α] (M : MathFns α) (lines : List (ObjLine α))
    (k : Nat) (p : PieceGeom α) (colorOv : Option Nat) (base : String)
    (mtlMap : List (String × MtlData α)) (s : ExpState α) : ExpState α :=
  let ctx := mkIntCtx M lines p mtlMap base s
  (lines.take k).foldl (objStep ctx) (integrateSetup colorOv base s)

/-- The complete `integrateOBJContent(objContent, x, y, elevation,
angle, name, piece, materialTextureMap)`. -/
def integrateOBJContent [FloorRing α] (M : MathFns α)
    (lines : List (ObjLine α)) (p : PieceGeom α) (colorOv : Option Nat)
    (base : String) (mtlMap : List (String × MtlData α)) (s : ExpState α) :
    ExpState α :=
  integrateUpTo M lines lines.length p colorOv base mtlMap s

/-! ### Furniture -/

/-- The outcome of the model-resource resolution for one piece (URL
normalisation plus `ZIPTools.getZIP` plus locating/parsing archive
members — all external I/O):
* `noModel`: no model URL and no catalog id — straight to the box;
* `loadFailed`: the fetch/unzip/member lookup rejected before any
  geometry was committed;
* `interrupted lines k`: the OBJ content was obtained and its
  integration raised after `k` lines of the second pass;
* `loaded lines mtlMap`: the content and its parsed MTL map, integrated
  to completion. -/
inductive LoadOutcome (α : Type) where
  | noModel
  | loadFailed
  | interrupted (lines : List (ObjLine α)) (k : Nat)
  | loaded (lines : List (ObjLine α)) (mtlMap : List (String × MtlData α))
deriving DecidableEq

/-- A furniture placement as read through the accessors, together with
its model-load outcome. -/
structure Piece (α : Type) where
  geom : PieceGeom α
  color : Option Nat
  load : LoadOutcome α
deriving DecidableEq

/-- `exportFurnitureBoundingBox(piece, name)`: the eight rotated box
corners, optional colour-override material, then six quads (bottom, top
and four sides). -/
def exportFurnitureBoundingBox (M : MathFns α) (p : Piece α) (base : String)
    (s : ExpState α) : ExpState α :=
  let g := p.geom
  let c := M.cos g.angle
  let sn := M.sin g.angle
  let tv : Vec3 α → Vec3 α := fun v =>
    (g.x + (v.1 * c - v.2.2 * sn), g.elevation + v.2.1,
     g.y + (v.1 * sn + v.2.2 * c))
  let w2 := g.width / 2
  let d2 := g.depth / 2
  let p0 := tv (-w2, 0, -d2)
  let p1 := tv (w2, 0, -d2)
  let p2 := tv (w2, 0, d2)
  let p3 := tv (-w2, 0, d2)
  let p4 := tv (-w2, g.height, -d2)
  let p5 := tv (w2, g.height, -d2)
  let p6 := tv (w2, g.height, d2)
  let p7 := tv (-w2, g.height, d2)
  let s1 :=
    match p.color with
    | some cv =>
      let r : α := channel cv 16
      let gg : α := channel cv 8
      let b : α := channel cv 0
      let mat : Material α :=
        ⟨base, (r * (2/10), gg * (2/10), b * (2/10)), (r, gg, b),
         (3/10, 3/10, 3/10), 30, 1, none, defaultTransform⟩
      { s with materials := mapSet s.materials base mat }
    | none => s
  let s2 := setMaterial base s1
  let s3 := addQuad p0 p1 p2 p3 (0, -1, 0) s2
  let s4 := addQuad p4 p7 p6 p5 (0, 1, 0) s3
  let s5 := addQuad p0 p3 p7 p4 (-c, 0, -sn) s4
  let s6 := addQuad p1 p5 p6 p2 (c, 0, sn) s5
  let s7 := addQuad p3 p2 p6 p7 (sn, 0, -c) s6
  addQuad p0 p4 p5 p1 (-sn, 0, c) s7

/-- `exportFurniture(piece, name, component3D)` with
`name = furniture_<i>`: a successful model load integrates the OBJ
content; any load/integration failure is caught and the bounding-box
fallback runs on whatever state the failure left (the interruption model
of `integrateUpTo`); the failure never escapes this function.  The
material base name is `furniture_${name}`, i.e.
`furniture_furniture_<i>`. -/
def exportFurnitureE [FloorRing α] (M : MathFns α) (i : Nat) (p : Piece α)
    (s : ExpState α) : ExpState α :=
  let base := "furniture_furniture_" ++ toString i
  match p.load with
  | .noModel => exportFurnitureBoundingBox M p base s
  | .loadFailed => exportFurnitureBoundingBox M p base s
  | .interrupted lines k =>
    exportFurnitureBoundingBox M p base
      (integrateUpTo M lines k p.geom p.color base [] s)
  | .loaded lines mtlMap =>
    integrateOBJContent M lines p.geom p.color base mtlMap s

/-! ### `exportHome` -/

/-- The architectural model: the three accessor lists.  A missing
accessor or `null` return behaves as the empty list; a `null` element is
`none` (it is skipped by the per-element guard but still counted). -/
structure Home (α : Type) where
  name : String
  walls : List (Option (Wall α))
  rooms : List (Option (Room α))
  furniture : List (Option (Piece α))

/-- The geometry phase of `exportHome`: walls, then rooms, then
furniture, in list order, on a freshly reset state. -/
def processHome [FloorRing α] (M : MathFns α) (h : Home α) : ExpState α :=
  let s1 := (h.walls.enum).foldl
    (fun st p => match p.2 with
      | none => st
      | some w => exportWall M p.1 w st) (initState (α := α))
  let s2 := h.rooms.foldl
    (fun st r => match r with
      | none => st
      | some room => exportRoom room st) s1
  (h.furniture.enum).foldl
    (fun st p => match p.2 with
      | none => st
      | some pc => exportFurnitureE M p.1 pc st) s2

/-- The zero-geometry error message for an empty home. -/
def emptyMsg : String :=
  "No geometry exported. The home is empty - no walls, rooms, or furniture found."

/-- The zero-geometry error message when elements existed but produced
nothing. -/
def failMsg (n : Nat) : String :=
  "No geometry exported. Found " ++ toString n ++
    " items but failed to generate geometry."

/-- `exportHome(home, component3D)`: after processing every element, a
state with no vertices is an error — the empty-home message when no
element was counted, the found-but-failed message otherwise. -/
def exportHomeE [FloorRing α] (M : MathFns α) (h : Home α) :
    Except String (ExpState α) :=
  let s := processHome M h
  let total := h.walls.length + h.rooms.length + h.furniture.length
  if s.vertices.length = 0 then
    if total = 0 then .error emptyMsg else .error (failMsg total)
  else .ok s

/-! ### Serialisation (`buildOBJContent`, `buildMTLContent`, header)

The emitted text is modelled at line granularity: `buildOBJContent`
produces the `ObjLine` list the text denotes, and `buildMTLContent` a
`MtlLine` list.  `formatNumber` (`num.toFixed(7)`) prints seven decimal
places; the number the printed string denotes is `fmtVal`, rounding to
the nearest multiple of `10⁻⁷`. -/

/-- The value denoted by `formatNumber(num)` = `num.toFixed(7)`. -/
def fmtVal [FloorRing α] (q : α) : α :=
  (round (q * 10 ^ 7) : ℤ) / 10 ^ 7

/-- The face-line text for one face.  The variant is chosen from the
first slot only (`hasTexCoords`/`hasNormals` test `face.texCoords[0]` /
`face.normals[0]`); for the mixed faces of `integrateOBJContent` the
source then stringifies a `null` slot as the literal text `null`, which
is not an index — the line model is exact for faces whose slots are
uniformly present or absent. -/
def faceLine (f : Face) : ObjLine α :=
  let hasT := f.t.1.isSome
  let hasN := f.n.1.isSome
  .f [⟨f.v.1, if hasT then f.t.1 else none, if hasN then f.n.1 else none⟩,
      ⟨f.v.2.1, if hasT then f.t.2.1 else none, if hasN then f.n.2.1 else none⟩,
      ⟨f.v.2.2, if hasT then f.t.2.2 else none, if hasN then f.n.2.2 else none⟩]

/-- The face section: a `usemtl` switch (preceded by the blank line the
leading `\n` produces) whenever the face's material differs from the
previous one.  A `none` material after a switch prints as the text
`usemtl null`, modelled by `getD "null"`. -/
def serializeFaces (cur : Option String) : List Face → List (ObjLine α)
  | [] => []
  | f :: rest =>
    (if f.material ≠ cur then
       [ObjLine.blank, ObjLine.usemtl (f.material.getD "null")]
     else []) ++ (faceLine f :: serializeFaces f.material rest)

/-- `buildOBJContent()`. -/
def buildOBJContent [FloorRing α] (s : ExpState α) : List (ObjLine α) :=
  [ObjLine.comment ("Vertices: " ++ toString s.vertices.length)]
    ++ s.vertices.map (fun v => ObjLine.v (fmtVal v.1) (fmtVal v.2.1) (fmtVal v.2.2))
    ++ [ObjLine.blank]
    ++ [ObjLine.comment ("Normals: " ++ toString s.normals.length)]
    ++ s.normals.map (fun n => ObjLine.vn (fmtVal n.1) (fmtVal n.2.1) (fmtVal n.2.2))
    ++ [ObjLine.blank]
    ++ (if s.texCoords.length = 0 then []
        else [ObjLine.comment ("Texture coordinates: " ++ toString s.texCoords.length)]
          ++ s.texCoords.map (fun tc => ObjLine.vt (fmtVal tc.1) (fmtVal tc.2))
          ++ [ObjLine.blank])
    ++ [ObjLine.comment ("Faces: " ++ toString s.faces.length)]
    ++ serializeFaces none s.faces

/-- One trimmed line of MTL text. -/
inductive MtlLine (α : Type) where
  | comment (s : String)
  | blank
  | newmtl (m : String)
  | kd (r g b : α)
  | ks (r g b : α)
  | ns (x : α)
  | d (x : α)
  | illum (n : Nat)
  | mapKd (s : String)
deriving DecidableEq

/-- The MTL block for one material: no `Ka`, `Kd` forced to white for
textured materials, `Ks` forced to black, then `Ns`, `d`, `illum 2` and
the flat `map_Kd` reference. -/
def mtlBlock [FloorRing α] (nm : String) (mat : Material α) :
    List (MtlLine α) :=
  [MtlLine.newmtl nm]
    ++ (match mat.texture with
        | some _ => [MtlLine.kd 1 1 1]
        | none => [MtlLine.kd (fmtVal mat.diffuse.1) (fmtVal mat.diffuse.2.1)
            (fmtVal mat.diffuse.2.2)])
    ++ [MtlLine.ks 0 0 0, MtlLine.ns (fmtVal mat.shininess),
        MtlLine.d (fmtVal mat.transparency), MtlLine.illum 2]
    ++ (match mat.texture with
        | some t => [MtlLine.mapKd t]
        | none => [])
    ++ [MtlLine.blank]

/-- `buildMTLContent()`: the dated header, then each material's block in
map insertion order. -/
def buildMTLContent [FloorRing α] (date : String) (s : ExpState α) :
    List (MtlLine α) :=
  [MtlLine.comment "MTL file generated by OBJExporter.js",
   MtlLine.comment ("Date: " ++ date), MtlLine.blank]
    ++ s.materials.foldr (fun p acc => mtlBlock p.1 p.2 ++ acc) []

/-- `generateHeader(home)` plus the `mtllib` reference that
`exportToOBJ` prepends to the geometry (the `# Date:` line carries
`new Date().toISOString()`, a clock reading). -/
def headerLines (homeName date : String) : List (ObjLine α) :=
  [ObjLine.comment "Exported from SweetHome3D JS",
   ObjLine.comment ("Home: " ++ homeName),
   ObjLine.comment ("Date: " ++ date),
   ObjLine.comment "Exporter: OBJExporter.js for Unity Digital Twin Integration",
   ObjLine.blank,
   ObjLine.mtllib "materials.mtl",
   ObjLine.blank]

/-- The OBJ text of one `exportToOBJ` run (when `exportHome` did not
throw): header, `mtllib`, then the serialised pools. -/
def outputOBJ [FloorRing α] (M : MathFns α) (h : Home α) (date : String) :
    Except String (List (ObjLine α)) :=
  (exportHomeE M h).map (fun st => headerLines h.name date ++ buildOBJContent st)

/-- The MTL text of one run. -/
def outputMTL [FloorRing α] (M : MathFns α) (h : Home α) (date : String) :
    Except String (List (MtlLine α)) :=
  (exportHomeE M h).map (fun st => buildMTLContent date st)

/-! ### Re-parsing serialised text

The exporter's face-reference rules live in `objStep` (shared with
`integrateOBJContent`).  Re-parsing emitted text is `objStep` run from a
fresh state under the identity placement (no centring, unit scale, zero
yaw, zero position — `cos = 1`, `sin = 0`) and zero pool offsets. -/

/-- The identity parse context. -/
def idCtx : IntCtx α :=
  { centerX := 0, centerY := 0, centerZ := 0, scaleX := 1, scaleY := 1,
    scaleZ := 1, cosA := 1, sinA := 0, px := 0, py := 0, elev := 0,
    vOff := 0, nOff := 0, tOff := 0, mtlMap := [], baseMaterial := "reparse" }

/-- Parse a line list with the exporter's own rules into fresh pools. -/
def parseOBJ [FloorRing α] (lines : List (ObjLine α)) : ExpState α :=
  lines.foldl (objStep idCtx) (initState (α := α))

/-- The connectivity of a face: its three index triples. -/
def faceConn (f : Face) :
    (ℤ × ℤ × ℤ) × (Option ℤ × Option ℤ × Option ℤ) ×
      (Option ℤ × Option ℤ × Option ℤ) :=
  (f.v, f.n, f.t)

/-! ### Helper lemmas about the accumulator operations -/

/-- A normal that survives `addNormal`'s zero-length rejection. -/
def naccept (n : Vec3 α) : Prop :=
  ¬(|n.1| < epsSmall ∧ |n.2.1| < epsSmall ∧ |n.2.2| < epsSmall)

theorem naccept_unit {x y : α} (h : x ^ 2 + y ^ 2 = 1) (z : α) :
    naccept (x, z, y) := by
  rintro ⟨h1, _, h3⟩
  have hx : x ^ 2 < epsSmall ^ 2 := by
    have := sq_abs x
    nlinarith [abs_nonneg x, abs_nonneg (epsSmall (α := α))]
  have hy : y ^ 2 < epsSmall ^ 2 := by
    have := sq_abs y
    nlinarith [abs_nonneg y, abs_nonneg (epsSmall (α := α))]
  have : (1 : α) < 2 * epsSmall ^ 2 := by nlinarith
  rw [epsSmall] at this
  norm_num at this

theorem naccept_down : naccept (α := α) (0, -1, 0) := by
  rintro ⟨_, h2, _⟩
  rw [epsSmall] at h2
  norm_num at h2

theorem naccept_up : naccept (α := α) (0, 1, 0) := by
  rintro ⟨_, h2, _⟩
  rw [epsSmall] at h2
  norm_num at h2

theorem naccept_backZ : naccept (α := α) (0, 0, 1) := by
  rintro ⟨_, _, h3⟩
  rw [epsSmall] at h3
  norm_num at h3

theorem naccept_frontZ : naccept (α := α) (0, 0, -1) := by
  rintro ⟨_, _, h3⟩
  rw [epsSmall] at h3
  norm_num at h3

theorem addNormal_accept {n : Vec3 α} (h : naccept n) (s : ExpState α) :
    addNormal n s =
      (some s.normalIndex,
       { s with normals := s.normals ++ [n],
                normalIndex := s.normalIndex + 1 }) := by
  rw [addNormal, if_neg h]

theorem addTriangle_accept {n : Vec3 α} (h : naccept n) (v1 v2 v3 : Vec3 α)
    (s : ExpState α) :
    addTriangle v1 v2 v3 n s =
      { s with vertices := s.vertices ++ [v1, v2, v3],
               vertexIndex := s.vertexIndex + 3,
               normals := s.normals ++ [n],
               normalIndex := s.normalIndex + 1,
               faces := s.faces ++
                 [⟨((s.vertexIndex : ℤ), ((s.vertexIndex + 1 : ℕ) : ℤ),
                    ((s.vertexIndex + 2 : ℕ) : ℤ)),
                   (some (s.normalIndex : ℤ), some (s.normalIndex : ℤ),
                    some (s.normalIndex : ℤ)),
                   (none, none, none), s.currentMaterial⟩] } := by
  simp only [addTriangle, addVertex, addNormal_accept h]
  simp [List.append_assoc, Int.ofNat_eq_natCast]
  omega

theorem addTriangleWithTexture_accept [FloorRing α] (M : MathFns α)
    {n : Vec3 α} (h : naccept n) (v1 v2 v3 : Vec3 α) (tt : TexTransform α)
    (s : ExpState α) :
    addTriangleWithTexture M v1 v2 v3 n tt s =
      { s with vertices := s.vertices ++ [v1, v2, v3],
               vertexIndex := s.vertexIndex + 3,
               normals := s.normals ++ [n],
               normalIndex := s.normalIndex + 1,
               texCoords := s.texCoords ++
                 [(generateTriangleUVs M v1 v2 v3 tt).1,
                  (generateTriangleUVs M v1 v2 v3 tt).2.1,
                  (generateTriangleUVs M v1 v2 v3 tt).2.2],
               texCoordIndex := s.texCoordIndex + 3,
               faces := s.faces ++
                 [⟨((s.vertexIndex : ℤ), ((s.vertexIndex + 1 : ℕ) : ℤ),
                    ((s.vertexIndex + 2 : ℕ) : ℤ)),
                   (some (s.normalIndex : ℤ), some (s.normalIndex : ℤ),
                    some (s.normalIndex : ℤ)),
                   (some (s.texCoordIndex : ℤ), some ((s.texCoordIndex + 1 : ℕ) : ℤ),
                    some ((s.texCoordIndex + 2 : ℕ) : ℤ)),
                   s.currentMaterial⟩] } := by
  simp only [addTriangleWithTexture, addVertex, addTexCoord, addNormal_accept h]
  simp [List.append_assoc, Int.ofNat_eq_natCast, generateTriangleUVs]
  omega

/-- Every `addTriangle` pushes exactly one face, accepted normal or
not. -/
theorem addTriangle_faces_len (v1 v2 v3 n : Vec3 α) (s : ExpState α) :
    (addTriangle v1 v2 v3 n s).faces.length = s.faces.length + 1 := by
  simp only [addTriangle, addVertex, addNormal]
  split <;> simp

theorem addTriangle_vertices_len (v1 v2 v3 n : Vec3 α) (s : ExpState α) :
    (addTriangle v1 v2 v3 n s).vertices.length = s.vertices.length + 3 := by
  simp only [addTriangle, addVertex, addNormal]
  split <;> simp

theorem addQuad_faces_len (v1 v2 v3 v4 n : Vec3 α) (s : ExpState α) :
    (addQuad v1 v2 v3 v4 n s).faces.length = s.faces.length + 2 := by
  simp [addQuad, addTriangle_faces_len]

theorem setMaterial_geom (nm : String) (s : ExpState α) :
    (setMaterial nm s).vertices = s.vertices ∧
    (setMaterial nm s).normals = s.normals ∧
    (setMaterial nm s).texCoords = s.texCoords ∧
    (setMaterial nm s).faces = s.faces ∧
    (setMaterial nm s).vertexIndex = s.vertexIndex ∧
    (setMaterial nm s).normalIndex = s.normalIndex ∧
    (setMaterial nm s).texCoordIndex = s.texCoordIndex := by
  simp [setMaterial]

/-- Material/texture bookkeeping leaves the geometry pools and their
running indices untouched. -/
def SamePools (t s : ExpState α) : Prop :=
  t.vertices = s.vertices ∧ t.normals = s.normals ∧ t.texCoords = s.texCoords ∧
  t.faces = s.faces ∧ t.vertexIndex = s.vertexIndex ∧
  t.normalIndex = s.normalIndex ∧ t.texCoordIndex = s.texCoordIndex

theorem SamePools.trans2 {a b c : ExpState α} (h1 : SamePools a b)
    (h2 : SamePools b c) : SamePools a c := by
  obtain ⟨x1, x2, x3, x4, x5, x6, x7⟩ := h1
  obtain ⟨y1, y2, y3, y4, y5, y6, y7⟩ := h2
  exact ⟨x1.trans y1, x2.trans y2, x3.trans y3, x4.trans y4, x5.trans y5,
    x6.trans y6, x7.trans y7⟩

theorem addTexture_pools (b u : String) (d : List Nat) (s : ExpState α) :
    SamePools (addTexture b u d s).2 s := by
  unfold addTexture
  rcases h : findDuplicateTexture d s with _ | nm <;>
    simp [h, SamePools]

theorem texturedMaterialE_pools (tb mn : String) (ts : TextureSpec α)
    (spec : Vec3 α) (shin : α) (s : ExpState α) :
    SamePools (texturedMaterialE tb mn ts spec shin s).2 s := by
  have h := addTexture_pools tb ts.url ts.data s
  obtain ⟨x1, x2, x3, x4, x5, x6, x7⟩ := h
  exact ⟨x1, x2, x3, x4, x5, x6, x7⟩

theorem colorMaterialE_pools [FloorRing α] (pre : String) (c : Nat)
    (spec : Vec3 α) (shin : α) (s : ExpState α) :
    SamePools (colorMaterialE pre c spec shin s).2 s := by
  simp only [colorMaterialE]
  split <;> simp [SamePools]

theorem getWallMaterialE_pools [FloorRing α] (w : Wall α) (i : Nat)
    (s : ExpState α) : SamePools (getWallMaterialE w i s).2 s := by
  unfold getWallMaterialE
  rcases w.leftTexture with _ | ts
  · rcases w.leftColor with _ | c
    · exact ⟨rfl, rfl, rfl, rfl, rfl, rfl, rfl⟩
    · simp only
      split
      · exact ⟨rfl, rfl, rfl, rfl, rfl, rfl, rfl⟩
      · exact colorMaterialE_pools _ _ _ _ _
  · exact texturedMaterialE_pools _ _ _ _ _ _

theorem getWallRightSideMaterialE_pools [FloorRing α] (w : Wall α) (i : Nat)
    (s : ExpState α) : SamePools (getWallRightSideMaterialE w i s).2 s := by
  unfold getWallRightSideMaterialE
  rcases w.rightTexture with _ | ts
  · rcases w.rightColor with _ | c
    · exact getWallMaterialE_pools _ _ _
    · simp only
      split
      · exact getWallMaterialE_pools _ _ _
      · exact colorMaterialE_pools _ _ _ _ _
  · exact texturedMaterialE_pools _ _ _ _ _ _

theorem wallResolve_pools [FloorRing α] (M : MathFns α) (w : Wall α) (i : Nat)
    (s : ExpState α) :
    SamePools (getWallRightSideMaterialE w i (getWallMaterialE w i s).2).2 s :=
  (getWallRightSideMaterialE_pools w i _).trans2 (getWallMaterialE_pools w i s)

theorem getRoomFloorMaterialE_pools [FloorRing α] (room : Room α)
    (s : ExpState α) : SamePools (getRoomFloorMaterialE room s).2 s := by
  unfold getRoomFloorMaterialE
  rcases room.floorColor with _ | c
  · exact ⟨rfl, rfl, rfl, rfl, rfl, rfl, rfl⟩
  · simp only
    split
    · exact ⟨rfl, rfl, rfl, rfl, rfl, rfl, rfl⟩
    · exact colorMaterialE_pools _ _ _ _ _

theorem getRoomCeilingMaterialE_pools [FloorRing α] (room : Room α)
    (s : ExpState α) : SamePools (getRoomCeilingMaterialE room s).2 s := by
  unfold getRoomCeilingMaterialE
  rcases room.ceilingColor with _ | c
  · exact ⟨rfl, rfl, rfl, rfl, rfl, rfl, rfl⟩
  · simp only
    split
    · exact ⟨rfl, rfl, rfl, rfl, rfl, rfl, rfl⟩
    · exact colorMaterialE_pools _ _ _ _ _

/-- The normal-index triple of the `j`-th face pushed by a wall quad. -/
def nTr (k : Nat) : Option ℤ × Option ℤ × Option ℤ :=
  (some (k : ℤ), some (k : ℤ), some (k : ℤ))

/-- Effect of one wall quad on the pool fields the claims inspect. -/
theorem wallQuad_fields [FloorRing α] (M : MathFns α) (ht : Bool)
    (tt : TexTransform α) (v1 v2 v3 v4 : Vec3 α) {n : Vec3 α}
    (h : naccept n) (s : ExpState α) :
    (wallQuad M ht tt v1 v2 v3 v4 n s).normals = s.normals ++ [n, n] ∧
    (wallQuad M ht tt v1 v2 v3 v4 n s).normalIndex = s.normalIndex + 2 ∧
    (wallQuad M ht tt v1 v2 v3 v4 n s).vertices.length = s.vertices.length + 6 ∧
    ∃ fs, (wallQuad M ht tt v1 v2 v3 v4 n s).faces = s.faces ++ fs ∧
      fs.map Face.n = [nTr s.normalIndex, nTr (s.normalIndex + 1)] := by
  cases ht
  · simp only [wallQuad, Bool.false_eq_true, if_false, if_true, addQuad,
      addQuadWithTexture, addTriangle_accept h,
      addTriangleWithTexture_accept M h]
    refine ⟨by simp, trivial, ?_, ?_⟩
    · simp only [List.length_append, List.length_cons, List.length_nil]
    · exact ⟨_, List.append_assoc _ _ _, by simp [nTr]⟩
  · simp only [wallQuad, Bool.false_eq_true, if_false, if_true, addQuad,
      addQuadWithTexture, addTriangle_accept h,
      addTriangleWithTexture_accept M h]
    refine ⟨by simp, trivial, ?_, ?_⟩
    · simp only [List.length_append, List.length_cons, List.length_nil]
    · exact ⟨_, List.append_assoc _ _ _, by simp [nTr]⟩

/-- Closed form of the five-quad stage on the pools the claims inspect:
ten appended normals in order (front ×2, back ×2, top ×2, the two end
caps ×2 each), thirty appended vertices, ten appended faces, each face's
normal-index triple pointing at the normal its own `addTriangle`
appended. -/
theorem wallQuads_spec [FloorRing α] (M : MathFns α) (w : Wall α)
    (lName rName : String) (b1 b2 : Bool) (ltt rtt : TexTransform α)
    (s : ExpState α)
    (hc1 : naccept (-(wallNX M w), (0 : α), -(wallNY M w)))
    (hc2 : naccept (wallNX M w, (0 : α), wallNY M w)) :
    (wallQuads M w lName rName b1 b2 ltt rtt s).normals = s.normals ++
      [((0 : α), (0 : α), (-1 : α)), (0, 0, -1), (0, 0, 1), (0, 0, 1),
       (0, 1, 0), (0, 1, 0),
       (-(wallNX M w), 0, -(wallNY M w)), (-(wallNX M w), 0, -(wallNY M w)),
       (wallNX M w, 0, wallNY M w), (wallNX M w, 0, wallNY M w)] ∧
    (wallQuads M w lName rName b1 b2 ltt rtt s).vertices.length =
      s.vertices.length + 30 ∧
    (wallQuads M w lName rName b1 b2 ltt rtt s).faces.length =
      s.faces.length + 10 ∧
    ((wallQuads M w lName rName b1 b2 ltt rtt s).faces.drop
        s.faces.length).map Face.n =
      [nTr s.normalIndex, nTr (s.normalIndex + 1), nTr (s.normalIndex + 2),
       nTr (s.normalIndex + 3), nTr (s.normalIndex + 4), nTr (s.normalIndex + 5),
       nTr (s.normalIndex + 6), nTr (s.normalIndex + 7), nTr (s.normalIndex + 8),
       nTr (s.normalIndex + 9)] := by
  simp only [wallQuads]
  set nx := wallNX M w with hnx
  set ny := wallNY M w with hny
  set t2 := w.thickness / 2 with ht2
  set S3 := setMaterial lName s with hS3
  obtain ⟨g31, g32, g33, g34, g35, g36, g37⟩ := setMaterial_geom lName s
  rw [← hS3] at g31 g32 g33 g34 g35 g36 g37
  obtain ⟨q1n, q1i, q1v, fs1, q1f, q1m⟩ :=
    wallQuad_fields M b1 ltt (w.xStart - nx * t2, 0, w.yStart - ny * t2)
      (w.xEnd - nx * t2, 0, w.yEnd - ny * t2)
      (w.xEnd - nx * t2, w.height, w.yEnd - ny * t2)
      (w.xStart - nx * t2, w.height, w.yStart - ny * t2)
      (naccept_frontZ (α := α)) S3
  set S4 := wallQuad M b1 ltt (w.xStart - nx * t2, 0, w.yStart - ny * t2)
      (w.xEnd - nx * t2, 0, w.yEnd - ny * t2)
      (w.xEnd - nx * t2, w.height, w.yEnd - ny * t2)
      (w.xStart - nx * t2, w.height, w.yStart - ny * t2) (0, 0, -1) S3
    with hS4
  set S5 := setMaterial rName S4 with hS5
  obtain ⟨g51, g52, g53, g54, g55, g56, g57⟩ := setMaterial_geom rName S4
  rw [← hS5] at g51 g52 g53 g54 g55 g56 g57
  obtain ⟨q2n, q2i, q2v, fs2, q2f, q2m⟩ :=
    wallQuad_fields M b2 rtt (w.xEnd + nx * t2, 0, w.yEnd + ny * t2)
      (w.xStart + nx * t2, 0, w.yStart + ny * t2)
      (w.xStart + nx * t2, w.height, w.yStart + ny * t2)
      (w.xEnd + nx * t2, w.height, w.yEnd + ny * t2)
      (naccept_backZ (α := α)) S5
  set S6 := wallQuad M b2 rtt (w.xEnd + nx * t2, 0, w.yEnd + ny * t2)
      (w.xStart + nx * t2, 0, w.yStart + ny * t2)
      (w.xStart + nx * t2, w.height, w.yStart + ny * t2)
      (w.xEnd + nx * t2, w.height, w.yEnd + ny * t2) (0, 0, 1) S5 with hS6
  set S7 := setMaterial lName S6 with hS7
  obtain ⟨g71, g72, g73, g74, g75, g76, g77⟩ := setMaterial_geom lName S6
  rw [← hS7] at g71 g72 g73 g74 g75 g76 g77
  obtain ⟨q3n, q3i, q3v, fs3, q3f, q3m⟩ :=
    wallQuad_fields M b1 ltt (w.xStart - nx * t2, w.height, w.yStart - ny * t2)
      (w.xEnd - nx * t2, w.height, w.yEnd - ny * t2)
      (w.xEnd + nx * t2, w.height, w.yEnd + ny * t2)
      (w.xStart + nx * t2, w.height, w.yStart + ny * t2)
      (naccept_up (α := α)) S7
  set S8 := wallQuad M b1 ltt (w.xStart - nx * t2, w.height, w.yStart - ny * t2)
      (w.xEnd - nx * t2, w.height, w.yEnd - ny * t2)
      (w.xEnd + nx * t2, w.height, w.yEnd + ny * t2)
      (w.xStart + nx * t2, w.height, w.yStart + ny * t2) (0, 1, 0) S7 with hS8
  obtain ⟨q4n, q4i, q4v, fs4, q4f, q4m⟩ :=
    wallQuad_fields M b1 ltt (w.xStart + nx * t2, 0, w.yStart + ny * t2)
      (w.xStart - nx * t2, 0, w.yStart - ny * t2)
      (w.xStart - nx * t2, w.height, w.yStart - ny * t2)
      (w.xStart + nx * t2, w.height, w.yStart + ny * t2) hc1 S8
  set S9 := wallQuad M b1 ltt (w.xStart + nx * t2, 0, w.yStart + ny * t2)
      (w.xStart - nx * t2, 0, w.yStart - ny * t2)
      (w.xStart - nx * t2, w.height, w.yStart - ny * t2)
      (w.xStart + nx * t2, w.height, w.yStart + ny * t2) (-nx, 0, -ny) S8
    with hS9
  obtain ⟨q5n, q5i, q5v, fs5, q5f, q5m⟩ :=
    wallQuad_fields M b1 ltt (w.xEnd - nx * t2, 0, w.yEnd - ny * t2)
      (w.xEnd + nx * t2, 0, w.yEnd + ny * t2)
      (w.xEnd + nx * t2, w.height, w.yEnd + ny * t2)
      (w.xEnd - nx * t2, w.height, w.yEnd - ny * t2) hc2 S9
  have hn4 : S4.normalIndex = s.normalIndex + 2 := by rw [q1i, g36]
  have hn5 : S5.normalIndex = s.normalIndex + 2 := by rw [g56, hn4]
  have hn6 : S6.normalIndex = s.normalIndex + 4 := by rw [q2i, hn5]
  have hn7 : S7.normalIndex = s.normalIndex + 4 := by rw [g76, hn6]
  have hn8 : S8.normalIndex = s.normalIndex + 6 := by rw [q3i, hn7]
  have hn9 : S9.normalIndex = s.normalIndex + 8 := by rw [q4i, hn8]
  rw [g36] at q1m
  rw [hn5] at q2m
  rw [hn7] at q3m
  rw [hn8] at q4m
  rw [hn9] at q5m
  have l1 : fs1.length = 2 := by simpa using congrArg List.length q1m
  have l2 : fs2.length = 2 := by simpa using congrArg List.length q2m
  have l3 : fs3.length = 2 := by simpa using congrArg List.length q3m
  have l4 : fs4.length = 2 := by simpa using congrArg List.length q4m
  have l5 : fs5.length = 2 := by simpa using congrArg List.length q5m
  refine ⟨?_, ?_, ?_, ?_⟩
  · rw [q5n, q4n, q3n, g72, q2n, g52, q1n, g32]
    simp
  · rw [q5v, q4v, q3v, g71, q2v, g51, q1v, g31]
  · rw [q5f, q4f, q3f, g74, q2f, g54, q1f, g34]
    simp only [List.length_append, l1, l2, l3, l4, l5]
  · rw [q5f, q4f, q3f, g74, q2f, g54, q1f, g34]
    simp only [List.append_assoc]
    rw [List.drop_left]
    simp only [List.map_append, q1m, q2m, q3m, q4m, q5m]
    simp [Nat.add_assoc]

/-- Over the reals, a non-degenerate wall has a genuinely unit
perpendicular, so neither end-cap normal is rejected by `addNormal`. -/
theorem wall_caps_naccept (w : Wall ℝ)
    (hne : ¬(w.xStart = w.xEnd ∧ w.yStart = w.yEnd)) :
    naccept (-(wallNX realMath w), (0 : ℝ), -(wallNY realMath w)) ∧
    naccept (wallNX realMath w, (0 : ℝ), wallNY realMath w) := by
  set dx := w.xEnd - w.xStart with hdx
  set dy := w.yEnd - w.yStart with hdy
  have hS : 0 < dx * dx + dy * dy := by
    rcases not_and_or.mp hne with h | h
    · have hdx0 : dx ≠ 0 := sub_ne_zero.mpr (Ne.symm h)
      nlinarith [mul_self_nonneg dy, mul_self_pos.mpr hdx0]
    · have hdy0 : dy ≠ 0 := sub_ne_zero.mpr (Ne.symm h)
      nlinarith [mul_self_nonneg dx, mul_self_pos.mpr hdy0]
  have hL : Real.sqrt (dx * dx + dy * dy) > 0 := Real.sqrt_pos.mpr hS
  have hL2 : Real.sqrt (dx * dx + dy * dy) * Real.sqrt (dx * dx + dy * dy) =
      dx * dx + dy * dy := Real.mul_self_sqrt hS.le
  have hunit : wallNX realMath w ^ 2 + wallNY realMath w ^ 2 = 1 := by
    rw [wallNX, wallNY, realMath]
    field_simp
    nlinarith [hL2]
  constructor
  · have h' : (-(wallNX realMath w)) ^ 2 + (-(wallNY realMath w)) ^ 2 = 1 := by
      simpa using hunit
    exact naccept_unit h' 0
  · exact naccept_unit hunit 0

/-- Closed form of a non-degenerate `exportWall` on the pools the claims
inspect. -/
theorem exportWall_spec [FloorRing α] (M : MathFns α) (i : Nat) (w : Wall α)
    (s : ExpState α) (hne : ¬(w.xStart = w.xEnd ∧ w.yStart = w.yEnd))
    (hc1 : naccept (-(wallNX M w), (0 : α), -(wallNY M w)))
    (hc2 : naccept (wallNX M w, (0 : α), wallNY M w)) :
    (exportWall M i w s).normals = s.normals ++
      [((0 : α), (0 : α), (-1 : α)), (0, 0, -1), (0, 0, 1), (0, 0, 1),
       (0, 1, 0), (0, 1, 0),
       (-(wallNX M w), 0, -(wallNY M w)), (-(wallNX M w), 0, -(wallNY M w)),
       (wallNX M w, 0, wallNY M w), (wallNX M w, 0, wallNY M w)] ∧
    (exportWall M i w s).vertices.length = s.vertices.length + 30 ∧
    (exportWall M i w s).faces.length = s.faces.length + 10 ∧
    ((exportWall M i w s).faces.drop s.faces.length).map Face.n =
      [nTr s.normalIndex, nTr (s.normalIndex + 1), nTr (s.normalIndex + 2),
       nTr (s.normalIndex + 3), nTr (s.normalIndex + 4), nTr (s.normalIndex + 5),
       nTr (s.normalIndex + 6), nTr (s.normalIndex + 7), nTr (s.normalIndex + 8),
       nTr (s.normalIndex + 9)] := by
  obtain ⟨p1, p2, p3, p4, p5, p6, p7⟩ := wallResolve_pools M w i s
  have hspec := wallQuads_spec M w (getWallMaterialE w i s).1
    (getWallRightSideMaterialE w i (getWallMaterialE w i s).2).1
    ((((mapGet (getWallRightSideMaterialE w i (getWallMaterialE w i s).2).2.materials
        (getWallMaterialE w i s).1).bind (fun m => m.texture))).isSome)
    ((((mapGet (getWallRightSideMaterialE w i (getWallMaterialE w i s).2).2.materials
        (getWallRightSideMaterialE w i (getWallMaterialE w i s).2).1).bind
        (fun m => m.texture))).isSome)
    (((mapGet (getWallRightSideMaterialE w i (getWallMaterialE w i s).2).2.materials
        (getWallMaterialE w i s).1).map (fun m => m.textureTransform)).getD
      defaultTransform)
    (((mapGet (getWallRightSideMaterialE w i (getWallMaterialE w i s).2).2.materials
        (getWallRightSideMaterialE w i (getWallMaterialE w i s).2).1).map
        (fun m => m.textureTransform)).getD defaultTransform)
    (getWallRightSideMaterialE w i (getWallMaterialE w i s).2).2 hc1 hc2
  rw [p1, p2, p4, p6] at hspec
  simp only [exportWall, if_neg hne]
  exact hspec

/-! ### Claims C1 and C10 -/

/-- Counterexample to claim C1 as stated: the non-degenerate wall from
(0,0) to (100,0) (height 250, thickness 10, no colours or textures)
makes the generator emit ten triangles — five quads (front, back, top
and the two end caps; the source emits no bottom quad) — not the twelve
triangles (six quads) the claim asserts. -/
theorem claim_C1_counterexample :
    (exportWall realMath 0
        (⟨0, 0, 100, 0, 250, 10, none, none, none, none⟩ : Wall ℝ)
        initState).faces.length = 10 ∧
    ¬((exportWall realMath 0
        (⟨0, 0, 100, 0, 250, 10, none, none, none, none⟩ : Wall ℝ)
        initState).faces.length = 12) := by
  have hne : ¬((0 : ℝ) = 100 ∧ (0 : ℝ) = 0) := by norm_num
  obtain ⟨hc1, hc2⟩ := wall_caps_naccept
    (⟨0, 0, 100, 0, 250, 10, none, none, none, none⟩ : Wall ℝ) hne
  have h := (exportWall_spec realMath 0
    (⟨0, 0, 100, 0, 250, 10, none, none, none, none⟩ : Wall ℝ)
    initState hne hc1 hc2).2.2.1
  constructor
  · simpa [initState] using h
  · rw [h]
    norm_num [initState]

/-- Claim C1 (amended): for every wall whose start point differs from
its end point, the wall generator emits exactly five quads — ten
triangles (front, back, top and the two end caps; no bottom quad),
thirty vertex entries and ten normal entries; for every wall whose start
point equals its end point it emits nothing at all (the state is
returned unchanged). -/
theorem claim_C1_wall_geometry (i : Nat) (w : Wall ℝ) (s : ExpState ℝ) :
    (w.xStart = w.xEnd ∧ w.yStart = w.yEnd → exportWall realMath i w s = s) ∧
    (¬(w.xStart = w.xEnd ∧ w.yStart = w.yEnd) →
      (exportWall realMath i w s).faces.length = s.faces.length + 10 ∧
      (exportWall realMath i w s).vertices.length = s.vertices.length + 30 ∧
      (exportWall realMath i w s).normals.length = s.normals.length + 10) := by
  constructor
  · intro h
    simp [exportWall, if_pos h]
  · intro hne
    obtain ⟨hc1, hc2⟩ := wall_caps_naccept w hne
    obtain ⟨hn, hv, hf, _⟩ := exportWall_spec realMath i w s hne hc1 hc2
    exact ⟨hf, hv, by rw [hn]; simp⟩

/-- Witness for the amended claim C1 at two concrete walls: a degenerate
wall adds nothing; the wall from (0,0) to (100,0) adds ten faces. -/
theorem claim_C1_wall_geometry_witness :
    ((0 : ℝ) = 0 ∧ (0 : ℝ) = 0) ∧
    exportWall realMath 0
      (⟨0, 0, 0, 0, 250, 10, none, none, none, none⟩ : Wall ℝ)
      (initState : ExpState ℝ) = initState ∧
    ¬((0 : ℝ) = 100 ∧ (0 : ℝ) = 0) ∧
    (exportWall realMath 1
      (⟨0, 0, 100, 0, 250, 10, none, none, none, none⟩ : Wall ℝ)
      (initState : ExpState ℝ)).faces.length =
      (initState : ExpState ℝ).faces.length + 10 :=
  ⟨⟨rfl, rfl⟩,
   (claim_C1_wall_geometry 0
     (⟨0, 0, 0, 0, 250, 10, none, none, none, none⟩ : Wall ℝ) initState).1
     ⟨rfl, rfl⟩,
   by norm_num,
   ((claim_C1_wall_geometry 1
     (⟨0, 0, 100, 0, 250, 10, none, none, none, none⟩ : Wall ℝ) initState).2
     (by norm_num)).1⟩

/-- Claim C10: for every non-degenerate wall, whatever its direction,
the ten emitted triangles carry, in emission order, the fixed normals
(0,0,-1) on the two front triangles, (0,0,1) on the two back triangles,
(0,1,0) on the two top triangles, and only the four end-cap triangles
get normals derived from the unit perpendicular: -(nx,0,ny) then
+(nx,0,ny); the j-th emitted triangle's three normal slots all reference
index `normalIndex + j`, i.e. the normal its own call appended. -/
theorem claim_C10_wall_normals (i : Nat) (w : Wall ℝ) (s : ExpState ℝ)
    (hne : ¬(w.xStart = w.xEnd ∧ w.yStart = w.yEnd)) :
    (exportWall realMath i w s).normals = s.normals ++
      [((0 : ℝ), (0 : ℝ), (-1 : ℝ)), (0, 0, -1), (0, 0, 1), (0, 0, 1),
       (0, 1, 0), (0, 1, 0),
       (-(wallNX realMath w), 0, -(wallNY realMath w)),
       (-(wallNX realMath w), 0, -(wallNY realMath w)),
       (wallNX realMath w, 0, wallNY realMath w),
       (wallNX realMath w, 0, wallNY realMath w)] ∧
    ((exportWall realMath i w s).faces.drop s.faces.length).map Face.n =
      [nTr s.normalIndex, nTr (s.normalIndex + 1), nTr (s.normalIndex + 2),
       nTr (s.normalIndex + 3), nTr (s.normalIndex + 4), nTr (s.normalIndex + 5),
       nTr (s.normalIndex + 6), nTr (s.normalIndex + 7), nTr (s.normalIndex + 8),
       nTr (s.normalIndex + 9)] := by
  obtain ⟨hc1, hc2⟩ := wall_caps_naccept w hne
  obtain ⟨hn, _, _, hm⟩ := exportWall_spec realMath i w s hne hc1 hc2
  exact ⟨hn, hm⟩

/-- Witness for claim C10 at the wall from (0,0) to (100,0). -/
theorem claim_C10_wall_normals_witness :
    ¬((0 : ℝ) = 100 ∧ (0 : ℝ) = 0) ∧
    ((exportWall realMath 0
        (⟨0, 0, 100, 0, 250, 10, none, none, none, none⟩ : Wall ℝ)
        (initState : ExpState ℝ)).normals = initState.normals ++
      [((0 : ℝ), (0 : ℝ), (-1 : ℝ)), (0, 0, -1), (0, 0, 1), (0, 0, 1),
       (0, 1, 0), (0, 1, 0),
       (-(wallNX realMath (⟨0, 0, 100, 0, 250, 10, none, none, none, none⟩ : Wall ℝ)), 0,
        -(wallNY realMath (⟨0, 0, 100, 0, 250, 10, none, none, none, none⟩ : Wall ℝ))),
       (-(wallNX realMath (⟨0, 0, 100, 0, 250, 10, none, none, none, none⟩ : Wall ℝ)), 0,
        -(wallNY realMath (⟨0, 0, 100, 0, 250, 10, none, none, none, none⟩ : Wall ℝ))),
       (wallNX realMath (⟨0, 0, 100, 0, 250, 10, none, none, none, none⟩ : Wall ℝ), 0,
        wallNY realMath (⟨0, 0, 100, 0, 250, 10, none, none, none, none⟩ : Wall ℝ)),
       (wallNX realMath (⟨0, 0, 100, 0, 250, 10, none, none, none, none⟩ : Wall ℝ), 0,
        wallNY realMath (⟨0, 0, 100, 0, 250, 10, none, none, none, none⟩ : Wall ℝ))]) :=
  ⟨by norm_num,
   (claim_C10_wall_normals 0
     (⟨0, 0, 100, 0, 250, 10, none, none, none, none⟩ : Wall ℝ) initState
     (by norm_num)).1⟩

/-! ### Claim C5: room triangulation -/

/-- The plan-view (x, z) projection of a generated triangle — the
order of the 2D plan points, which is what winding compares across the
floor and ceiling elevations. -/
def projT (t : Vec3 α × Vec3 α × Vec3 α) : Vec2 α × Vec2 α × Vec2 α :=
  ((t.1.1, t.1.2.2), (t.2.1.1, t.2.1.2.2), (t.2.2.1, t.2.2.2.2))

/-- Rotate a triangle's vertex listing one step. -/
def rotT {γ : Type} (t : γ × γ × γ) : γ × γ × γ := (t.2.1, t.2.2, t.1)

/-- Reverse a triangle's vertex listing. -/
def revT {γ : Type} (t : γ × γ × γ) : γ × γ × γ := (t.2.2, t.2.1, t.1)

/-- `t'` lists the same three vertices as `t` with the opposite cyclic
orientation (reversed winding). -/
def windingReversed {γ : Type} (t t' : γ × γ × γ) : Prop :=
  t' = revT t ∨ t' = rotT (revT t) ∨ t' = rotT (rotT (revT t))

theorem forall₂_map_of_forall {γ δ : Type} (R : δ → δ → Prop) (f g : γ → δ)
    (l : List γ) (h : ∀ a ∈ l, R (f a) (g a)) :
    List.Forall₂ R (l.map f) (l.map g) := by
  induction l with
  | nil => simp
  | cons a l ih =>
    simp only [List.map_cons, List.forall₂_cons]
    exact ⟨h a (List.mem_cons_self a l), ih (fun b hb => h b (List.mem_cons_of_mem a hb))⟩

/-- Claim C5: for every room polygon of N ≥ 3 vertices, the floor
triangulation (flipped winding, as `exportRoom` requests it) produces
exactly N−2 triangles, the ceiling triangulation (unflipped) produces
exactly N−2 triangles, and triangle-for-triangle the ceiling winding is
the reverse of the floor winding (equal up to cyclic rotation to the
reversed vertex listing, compared on the plan projection since the two
surfaces sit at different elevations). -/
theorem claim_C5_room_triangulation (pts : List (Vec2 ℚ)) (e1 e2 : ℚ)
    (h3 : 3 ≤ pts.length) :
    (triangulatePolygon pts e1 true).length = pts.length - 2 ∧
    (triangulatePolygon pts e2 false).length = pts.length - 2 ∧
    List.Forall₂ (fun fl ce => windingReversed (projT fl) (projT ce))
      (triangulatePolygon pts e1 true) (triangulatePolygon pts e2 false) := by
  by_cases hl3 : pts.length = 3
  · refine ⟨by simp [triangulatePolygon, hl3], by simp [triangulatePolygon, hl3], ?_⟩
    simp [triangulatePolygon, hl3, windingReversed, projT, revT, rotT, to3]
  · by_cases hl4 : pts.length = 4
    · refine ⟨by simp [triangulatePolygon, hl3, hl4],
        by simp [triangulatePolygon, hl3, hl4], ?_⟩
      simp [triangulatePolygon, hl3, hl4, windingReversed, projT, revT, rotT, to3]
    · refine ⟨by simp [triangulatePolygon, hl3, hl4],
        by simp [triangulatePolygon, hl3, hl4], ?_⟩
      simp only [triangulatePolygon, hl3, hl4, if_false]
      apply forall₂_map_of_forall
      intro a _
      simp [windingReversed, projT, revT, rotT, to3]

/-- Witness for claim C5 at a concrete rectangle. -/
theorem claim_C5_room_triangulation_witness :
    3 ≤ ([((0 : ℚ), (0 : ℚ)), (4, 0), (4, 3), (0, 3)] : List (Vec2 ℚ)).length ∧
    ((triangulatePolygon [((0 : ℚ), (0 : ℚ)), (4, 0), (4, 3), (0, 3)] 0 true).length =
        ([((0 : ℚ), (0 : ℚ)), (4, 0), (4, 3), (0, 3)] : List (Vec2 ℚ)).length - 2 ∧
      (triangulatePolygon [((0 : ℚ), (0 : ℚ)), (4, 0), (4, 3), (0, 3)] 250 false).length =
        ([((0 : ℚ), (0 : ℚ)), (4, 0), (4, 3), (0, 3)] : List (Vec2 ℚ)).length - 2 ∧
      List.Forall₂ (fun fl ce => windingReversed (projT fl) (projT ce))
        (triangulatePolygon [((0 : ℚ), (0 : ℚ)), (4, 0), (4, 3), (0, 3)] 0 true)
        (triangulatePolygon [((0 : ℚ), (0 : ℚ)), (4, 0), (4, 3), (0, 3)] 250 false)) :=
  ⟨by norm_num,
   claim_C5_room_triangulation [((0 : ℚ), (0 : ℚ)), (4, 0), (4, 3), (0, 3)] 0 250
     (by norm_num)⟩

/-! ### Claim C9: index bookkeeping invariant -/

/-- Each running 1-based index is one past its pool's length. -/
def IndexInv (s : ExpState α) : Prop :=
  s.vertexIndex = s.vertices.length + 1 ∧
  s.normalIndex = s.normals.length + 1 ∧
  s.texCoordIndex = s.texCoords.length + 1

/-- Claim C9: the invariant `vertexIndex = vertices.length + 1` (and
likewise for normals and texture coordinates) holds for a fresh state
and after `reset`, and is preserved by every geometry-appending
operation — `addVertex`, `addNormal` (a rejected normal returns `null`
and changes nothing), `addTexCoord`, `addTriangle`,
`addTriangleWithTexture` and every line step of `integrateOBJContent` —
and under it every returned index is exactly the 1-based position of the
element just appended. -/
theorem claim_C9_index_invariant [FloorRing α] :
    IndexInv (initState (α := α)) ∧
    (∀ s : ExpState α, IndexInv (reset s)) ∧
    (∀ (v : Vec3 α) (s : ExpState α), IndexInv s →
      IndexInv (addVertex v s).2 ∧
      (addVertex v s).1 = (addVertex v s).2.vertices.length) ∧
    (∀ (n : Vec3 α) (s : ExpState α), IndexInv s →
      IndexInv (addNormal n s).2 ∧
      (∀ k, (addNormal n s).1 = some k → k = (addNormal n s).2.normals.length) ∧
      ((addNormal n s).1 = none → (addNormal n s).2 = s)) ∧
    (∀ (u v : α) (s : ExpState α), IndexInv s →
      IndexInv (addTexCoord u v s).2 ∧
      (addTexCoord u v s).1 = (addTexCoord u v s).2.texCoords.length) ∧
    (∀ (v1 v2 v3 n : Vec3 α) (s : ExpState α), IndexInv s →
      IndexInv (addTriangle v1 v2 v3 n s)) ∧
    (∀ (M : MathFns α) (v1 v2 v3 n : Vec3 α) (tt : TexTransform α)
      (s : ExpState α), IndexInv s →
      IndexInv (addTriangleWithTexture M v1 v2 v3 n tt s)) ∧
    (∀ (ctx : IntCtx α) (line : ObjLine α) (s : ExpState α), IndexInv s →
      IndexInv (objStep ctx s line)) := by
  refine ⟨?_, ?_, ?_, ?_, ?_, ?_, ?_, ?_⟩
  · exact ⟨rfl, rfl, rfl⟩
  · intro s
    exact ⟨rfl, rfl, rfl⟩
  · intro v s hs
    obtain ⟨h1, h2, h3⟩ := hs
    exact ⟨⟨by simp [addVertex, h1], by simpa [addVertex] using h2,
      by simpa [addVertex] using h3⟩, by simp [addVertex, h1]⟩
  · intro n s hs
    obtain ⟨h1, h2, h3⟩ := hs
    unfold addNormal
    split
    · exact ⟨⟨h1, h2, h3⟩, by simp, fun _ => rfl⟩
    · refine ⟨⟨by simpa using h1, by simp [h2], by simpa using h3⟩, ?_, by simp⟩
      intro k hk
      simp only [Option.some.injEq] at hk
      simp [← hk, h2]
  · intro u v s hs
    obtain ⟨h1, h2, h3⟩ := hs
    exact ⟨⟨by simpa [addTexCoord] using h1, by simpa [addTexCoord] using h2,
      by simp [addTexCoord, h3]⟩, by simp [addTexCoord, h3]⟩
  · intro v1 v2 v3 n s hs
    obtain ⟨h1, h2, h3⟩ := hs
    unfold addTriangle addVertex addNormal
    split <;>
      exact ⟨by simp [h1], by simp [h2], by simp [h3]⟩
  · intro M v1 v2 v3 n tt s hs
    obtain ⟨h1, h2, h3⟩ := hs
    unfold addTriangleWithTexture addVertex addNormal addTexCoord
    split <;>
      exact ⟨by simp [h1], by simp [h2], by simp [h3]⟩
  · intro ctx line s hs
    obtain ⟨h1, h2, h3⟩ := hs
    cases line with
    | usemtl m =>
      simp only [objStep]
      rcases lookupCI ctx.mtlMap m with _ | d
      · rcases lookupCI s.defaultMaterials m with _ | d2
        · exact ⟨by simpa [setMaterial] using h1, by simpa [setMaterial] using h2,
            by simpa [setMaterial] using h3⟩
        · exact ⟨h1, h2, h3⟩
      · exact ⟨h1, h2, h3⟩
    | v x y z => exact ⟨by simp [objStep, h1], by simpa [objStep] using h2,
        by simpa [objStep] using h3⟩
    | vn x y z => exact ⟨by simpa [objStep] using h1, by simp [objStep, h2],
        by simpa [objStep] using h3⟩
    | vt u w => exact ⟨by simpa [objStep] using h1, by simpa [objStep] using h2,
        by simp [objStep, h3]⟩
    | f ws => exact ⟨by simpa [objStep] using h1, by simpa [objStep] using h2,
        by simpa [objStep] using h3⟩
    | mtllib m => exact ⟨h1, h2, h3⟩
    | comment c => exact ⟨h1, h2, h3⟩
    | blank => exact ⟨h1, h2, h3⟩

/-- Witness for claim C9: the fresh `ℚ` state satisfies the invariant,
and one `addVertex` on it preserves it and returns position 1. -/
theorem claim_C9_index_invariant_witness :
    IndexInv (initState : ExpState ℚ) ∧
    IndexInv (addVertex ((1 : ℚ), 2, 3) (initState : ExpState ℚ)).2 ∧
    (addVertex ((1 : ℚ), 2, 3) (initState : ExpState ℚ)).1 =
      (addVertex ((1 : ℚ), 2, 3) (initState : ExpState ℚ)).2.vertices.length :=
  ⟨(claim_C9_index_invariant (α := ℚ)).1,
   ((claim_C9_index_invariant (α := ℚ)).2.2.1 ((1 : ℚ), 2, 3) initState
     (claim_C9_index_invariant (α := ℚ)).1).1,
   ((claim_C9_index_invariant (α := ℚ)).2.2.1 ((1 : ℚ), 2, 3) initState
     (claim_C9_index_invariant (α := ℚ)).1).2⟩

/-! ### Claim C2: all-or-nothing face slots -/

/-- A face's three normal-index slots are all present or all absent, and
likewise its three texture-coordinate-index slots. -/
def FaceOK (f : Face) : Prop :=
  ((f.n.1.isSome ∧ f.n.2.1.isSome ∧ f.n.2.2.isSome) ∨
    (f.n.1 = none ∧ f.n.2.1 = none ∧ f.n.2.2 = none)) ∧
  ((f.t.1.isSome ∧ f.t.2.1.isSome ∧ f.t.2.2.isSome) ∨
    (f.t.1 = none ∧ f.t.2.1 = none ∧ f.t.2.2 = none))

instance (f : Face) : Decidable (FaceOK f) := by
  unfold FaceOK
  infer_instance

/-- Every face in the accumulated list satisfies `FaceOK`. -/
def FacesOK (s : ExpState α) : Prop := ∀ f ∈ s.faces, FaceOK f

instance (s : ExpState α) : Decidable (FacesOK s) := by
  unfold FacesOK
  infer_instance

/-- The words of one `f` line uniformly carry or omit their `vn`
reference, and uniformly carry or omit their `vt` reference. -/
def wordsUniform (ws : List FaceWord) : Prop :=
  ((∀ w ∈ ws, w.vn.isSome) ∨ (∀ w ∈ ws, w.vn = none)) ∧
  ((∀ w ∈ ws, w.vt.isSome) ∨ (∀ w ∈ ws, w.vt = none))

/-- A line whose face words (if any) are uniform. -/
def lineUniform : ObjLine α → Prop
  | .f ws => wordsUniform ws
  | _ => True

theorem getD_mem_of_lt {γ : Type} {l : List γ} {k : Nat} (h : k < l.length)
    (d : γ) : l.getD k d ∈ l := by
  rw [List.getD_eq_getElem l d h]
  exact List.getElem_mem h

theorem mkFaceFrom_ok {ws : List FaceWord} (ctx : IntCtx α) (s : ExpState α)
    (hu : wordsUniform ws) {a b c : ℤ × Option ℤ × Option ℤ}
    (ha : a ∈ ws.map (resolveWord ctx s)) (hb : b ∈ ws.map (resolveWord ctx s))
    (hc : c ∈ ws.map (resolveWord ctx s)) (cur : Option String) :
    FaceOK (mkFaceFrom cur a b c) := by
  obtain ⟨wa, hwa, rfl⟩ := List.mem_map.mp ha
  obtain ⟨wb, hwb, rfl⟩ := List.mem_map.mp hb
  obtain ⟨wc, hwc, rfl⟩ := List.mem_map.mp hc
  constructor
  · rcases hu.1 with h | h
    · left
      simp [mkFaceFrom, resolveWord, h wa hwa, h wb hwb, h wc hwc]
    · right
      simp [mkFaceFrom, resolveWord, h wa hwa, h wb hwb, h wc hwc]
  · rcases hu.2 with h | h
    · left
      simp [mkFaceFrom, resolveWord, h wa hwa, h wb hwb, h wc hwc]
    · right
      simp [mkFaceFrom, resolveWord, h wa hwa, h wb hwb, h wc hwc]

theorem addNormal_snd_faces (n : Vec3 α) (s : ExpState α) :
    (addNormal n s).2.faces = s.faces := by
  unfold addNormal
  split <;> rfl

theorem objStep_usemtl_faces [FloorRing α] (ctx : IntCtx α) (m : String)
    (s : ExpState α) : (objStep ctx s (ObjLine.usemtl m)).faces = s.faces := by
  simp only [objStep]
  rcases hA : lookupCI ctx.mtlMap m with _ | d
  · simp only [hA]
    rcases hB : lookupCI s.defaultMaterials m with _ | d2
    · simp [hB, setMaterial]
    · simp [hB]
  · simp [hA]

theorem slots3_ok (x : Option ℤ) :
    (x.isSome ∧ x.isSome ∧ x.isSome) ∨ (x = none ∧ x = none ∧ x = none) := by
  cases x <;> simp

/-- Claim C2 (amended): faces built by `addTriangle` and
`addTriangleWithTexture` always have all-or-nothing normal and texture
slots, and a line step of `integrateOBJContent` preserves the property
provided the line's face words are uniform (a face line whose words mix
`//vn` or `/vt` presence constructs a mixed face — see the
counterexample). -/
theorem claim_C2_face_slot_uniformity [FloorRing α] :
    (∀ (v1 v2 v3 n : Vec3 α) (s : ExpState α), FacesOK s →
      FacesOK (addTriangle v1 v2 v3 n s)) ∧
    (∀ (M : MathFns α) (v1 v2 v3 n : Vec3 α) (tt : TexTransform α)
      (s : ExpState α), FacesOK s →
      FacesOK (addTriangleWithTexture M v1 v2 v3 n tt s)) ∧
    (∀ (ctx : IntCtx α) (line : ObjLine α) (s : ExpState α), FacesOK s →
      lineUniform line → FacesOK (objStep ctx s line)) := by
  refine ⟨?_, ?_, ?_⟩
  · intro v1 v2 v3 n s hs f hf
    simp only [addTriangle, addVertex, addNormal_snd_faces,
      List.mem_append, List.mem_singleton] at hf
    rcases hf with hf | hf
    · exact hs f hf
    · subst hf
      exact ⟨slots3_ok _, Or.inr ⟨rfl, rfl, rfl⟩⟩
  · intro M v1 v2 v3 n tt s hs f hf
    simp only [addTriangleWithTexture, addVertex, addTexCoord,
      addNormal_snd_faces, List.mem_append, List.mem_singleton] at hf
    rcases hf with hf | hf
    · exact hs f hf
    · subst hf
      refine ⟨slots3_ok _, Or.inl ?_⟩
      simp
  · intro ctx line s hs hl
    cases line with
    | f ws =>
      intro f hf
      simp only [objStep, List.mem_append] at hf
      rcases hf with hf | hf
      · exact hs f hf
      · have hu : wordsUniform ws := hl
        have hlen : (ws.map (resolveWord ctx s)).length = ws.length :=
          List.length_map _ _
        split at hf
        · next h3 =>
          simp only [List.mem_singleton] at hf
          subst hf
          exact mkFaceFrom_ok ctx s hu (getD_mem_of_lt (by omega) _)
            (getD_mem_of_lt (by omega) _) (getD_mem_of_lt (by omega) _) _
        · split at hf
          · next h4 =>
            simp only [List.mem_cons, List.mem_singleton, List.not_mem_nil,
              or_false] at hf
            rcases hf with hf | hf <;>
              (subst hf;
               exact mkFaceFrom_ok ctx s hu (getD_mem_of_lt (by omega) _)
                 (getD_mem_of_lt (by omega) _) (getD_mem_of_lt (by omega) _) _)
          · split at hf
            · next h5 =>
              obtain ⟨i, hi, rfl⟩ := List.mem_map.mp hf
              have hi' := List.mem_range.mp hi
              exact mkFaceFrom_ok ctx s hu (getD_mem_of_lt (by omega) _)
                (getD_mem_of_lt (by omega) _) (getD_mem_of_lt (by omega) _) _
            · simp at hf
    | usemtl m =>
      intro f hf
      rw [objStep_usemtl_faces] at hf
      exact hs f hf
    | v x y z => exact fun f hf => hs f (by simpa [objStep] using hf)
    | vn x y z => exact fun f hf => hs f (by simpa [objStep] using hf)
    | vt u w => exact fun f hf => hs f (by simpa [objStep] using hf)
    | mtllib m => exact fun f hf => hs f hf
    | comment c => exact fun f hf => hs f hf
    | blank => exact fun f hf => hs f hf

/-- Counterexample to claim C2 as stated: the imported face line
`f 1//1 2 3` — whose first word carries a normal reference while the
other two do not — makes `integrateOBJContent` push a face whose normal
slots are `(some, none, none)`, violating the all-or-nothing invariant. -/
theorem claim_C2_counterexample :
    ¬ (∀ f ∈ (integrateOBJContent qMathFns
        [ObjLine.f [⟨1, none, some 1⟩, ⟨2, none, none⟩, ⟨3, none, none⟩]]
        (⟨0, 0, 0, 0, 1, 1, 1⟩ : PieceGeom ℚ) none "furniture_furniture_0" []
        (initState : ExpState ℚ)).faces, FaceOK f) := by
  decide

/-- Witness for the amended claim C2: `addTriangle` on the fresh state
yields only uniform faces. -/
theorem claim_C2_face_slot_uniformity_witness :
    FacesOK (initState : ExpState ℚ) ∧
    FacesOK (addTriangle ((0 : ℚ), 0, 0) (1, 0, 0) (0, 1, 0) (0, 0, 1)
      (initState : ExpState ℚ)) :=
  ⟨by decide,
   claim_C2_face_slot_uniformity.1 ((0 : ℚ), 0, 0) (1, 0, 0) (0, 1, 0)
     (0, 0, 1) initState (by decide)⟩

/-! ### Claim C3: material and texture deduplication -/

theorem colorMaterialE_fst [FloorRing α] (pre : String) (c : Nat)
    (spec : Vec3 α) (shin : α) (s : ExpState α) :
    (colorMaterialE pre c spec shin s).1 = colorName (α := α) pre c := by
  simp only [colorMaterialE]
  split <;> rfl

/-- The material name `getWallMaterial` returns does not depend on the
exporter state, only on the wall and its index. -/
theorem getWallMaterialE_fst_const [FloorRing α] (w : Wall α) (i : Nat)
    (s t : ExpState α) :
    (getWallMaterialE w i s).1 = (getWallMaterialE w i t).1 := by
  unfold getWallMaterialE
  rcases w.leftTexture with _ | ts
  · rcases w.leftColor with _ | c
    · rfl
    · simp only
      split
      · rfl
      · rw [colorMaterialE_fst, colorMaterialE_fst]
  · rfl

theorem getWallRightSideMaterialE_fst_const [FloorRing α] (w : Wall α)
    (i : Nat) (s t : ExpState α) :
    (getWallRightSideMaterialE w i s).1 = (getWallRightSideMaterialE w i t).1 := by
  unfold getWallRightSideMaterialE
  rcases w.rightTexture with _ | ts
  · rcases w.rightColor with _ | c
    · exact getWallMaterialE_fst_const w i s t
    · simp only
      split
      · exact getWallMaterialE_fst_const w i s t
      · rw [colorMaterialE_fst, colorMaterialE_fst]
  · rfl

theorem getRoomFloorMaterialE_fst_const [FloorRing α] (room : Room α)
    (s t : ExpState α) :
    (getRoomFloorMaterialE room s).1 = (getRoomFloorMaterialE room t).1 := by
  unfold getRoomFloorMaterialE
  rcases room.floorColor with _ | c
  · rfl
  · simp only
    split
    · rfl
    · rw [colorMaterialE_fst, colorMaterialE_fst]

theorem getRoomCeilingMaterialE_fst_const [FloorRing α] (room : Room α)
    (s t : ExpState α) :
    (getRoomCeilingMaterialE room s).1 = (getRoomCeilingMaterialE room t).1 := by
  unfold getRoomCeilingMaterialE
  rcases room.ceilingColor with _ | c
  · rfl
  · simp only
    split
    · rfl
    · rw [colorMaterialE_fst, colorMaterialE_fst]

/-- The flat-colour name of a wall's left side is a pure function of the
colour: two different walls, indices and states with the same left
colour (and no left texture) resolve to the same name. -/
theorem getWallMaterialE_color_pure [FloorRing α] (w1 w2 : Wall α)
    (i1 i2 : Nat) (s1 s2 : ExpState α) (c : Nat)
    (ht1 : w1.leftTexture = none) (hc1 : w1.leftColor = some c)
    (ht2 : w2.leftTexture = none) (hc2 : w2.leftColor = some c) :
    (getWallMaterialE w1 i1 s1).1 = (getWallMaterialE w2 i2 s2).1 := by
  unfold getWallMaterialE
  simp only [ht1, hc1, ht2, hc2]
  by_cases h0 : c = 0
  · simp [h0]
  · simp only [if_neg h0, colorMaterialE_fst]

/-- Right-side analogue, for a nonzero colour (a right colour of `0` is
JavaScript-falsy and falls back to the left-side material). -/
theorem getWallRightSideMaterialE_color_pure [FloorRing α] (w1 w2 : Wall α)
    (i1 i2 : Nat) (s1 s2 : ExpState α) (c : Nat) (hne : c ≠ 0)
    (ht1 : w1.rightTexture = none) (hc1 : w1.rightColor = some c)
    (ht2 : w2.rightTexture = none) (hc2 : w2.rightColor = some c) :
    (getWallRightSideMaterialE w1 i1 s1).1 =
      (getWallRightSideMaterialE w2 i2 s2).1 := by
  unfold getWallRightSideMaterialE
  simp only [ht1, hc1, ht2, hc2, if_neg hne, colorMaterialE_fst]

/-- Floor analogue: two different rooms and states with the same floor
colour resolve to the same name. -/
theorem getRoomFloorMaterialE_color_pure [FloorRing α] (r1 r2 : Room α)
    (s1 s2 : ExpState α) (c : Nat) (h1 : r1.floorColor = some c)
    (h2 : r2.floorColor = some c) :
    (getRoomFloorMaterialE r1 s1).1 = (getRoomFloorMaterialE r2 s2).1 := by
  unfold getRoomFloorMaterialE
  simp only [h1, h2]
  by_cases h0 : c = 0
  · simp [h0]
  · simp only [if_neg h0, colorMaterialE_fst]

/-- Ceiling analogue. -/
theorem getRoomCeilingMaterialE_color_pure [FloorRing α] (r1 r2 : Room α)
    (s1 s2 : ExpState α) (c : Nat) (h1 : r1.ceilingColor = some c)
    (h2 : r2.ceilingColor = some c) :
    (getRoomCeilingMaterialE r1 s1).1 = (getRoomCeilingMaterialE r2 s2).1 := by
  unfold getRoomCeilingMaterialE
  simp only [h1, h2]
  by_cases h0 : c = 0
  · simp [h0]
  · simp only [if_neg h0, colorMaterialE_fst]

theorem find_payload_map_update {d : List Nat} {k : String}
    (m : List (String × List Nat))
    (h : m.find? (fun p => p.2 == d) = none) (hk : mapHas m k = true) :
    (m.map (fun p => if p.1 == k then (k, d) else p)).find?
      (fun p => p.2 == d) = some (k, d) := by
  induction m with
  | nil => simp [mapHas] at hk
  | cons a m ih =>
    by_cases had : (a.2 == d) = true
    · rw [List.find?_cons_of_pos (p := fun q : String × List Nat => q.2 == d) _ had] at h
      exact absurd h (by simp)
    · rw [List.find?_cons_of_neg (p := fun q : String × List Nat => q.2 == d) _ had] at h
      by_cases hak : (a.1 == k) = true
      · simp only [List.map_cons, if_pos hak]
        exact List.find?_cons_of_pos (p := fun q : String × List Nat => q.2 == d) _
          (by simp)
      · have hk' : mapHas m k = true := by
          simpa [mapHas, hak] using hk
        simp only [List.map_cons, if_neg hak]
        rw [List.find?_cons_of_neg (p := fun q : String × List Nat => q.2 == d) _ had]
        exact ih h hk'

theorem find_payload_mapSet {d : List Nat} (m : List (String × List Nat))
    (k : String) (h : m.find? (fun p => p.2 == d) = none) :
    (mapSet m k d).find? (fun p => p.2 == d) = some (k, d) := by
  unfold mapSet
  split
  · next hk => exact find_payload_map_update m h hk
  · rw [List.find?_append, h]
    simp

/-- Claim C3 (amended): within one surface kind the flat-colour material
name is a pure function of the colour — the same colour supplied by two
different walls (any indices, any states) or two different rooms
resolves to the same name, and re-resolving any surface yields the same
name again (for the right side a colour of `0` is JavaScript-falsy and
falls back to the left-side material, so purity is stated for nonzero
colours there); different surface kinds use distinct kind-prefixed
names — see the counterexample.  Registering two byte-for-byte
identical texture payloads stores a single asset whose one name is
returned by both registrations, the second of which leaves the state
unchanged. -/
theorem claim_C3_material_dedup [FloorRing α] :
    (∀ (w1 w2 : Wall α) (i1 i2 : Nat) (s1 s2 : ExpState α) (c : Nat),
      w1.leftTexture = none → w1.leftColor = some c →
      w2.leftTexture = none → w2.leftColor = some c →
      (getWallMaterialE w1 i1 s1).1 = (getWallMaterialE w2 i2 s2).1) ∧
    (∀ (w1 w2 : Wall α) (i1 i2 : Nat) (s1 s2 : ExpState α) (c : Nat),
      c ≠ 0 →
      w1.rightTexture = none → w1.rightColor = some c →
      w2.rightTexture = none → w2.rightColor = some c →
      (getWallRightSideMaterialE w1 i1 s1).1 =
        (getWallRightSideMaterialE w2 i2 s2).1) ∧
    (∀ (r1 r2 : Room α) (s1 s2 : ExpState α) (c : Nat),
      r1.floorColor = some c → r2.floorColor = some c →
      (getRoomFloorMaterialE r1 s1).1 = (getRoomFloorMaterialE r2 s2).1) ∧
    (∀ (r1 r2 : Room α) (s1 s2 : ExpState α) (c : Nat),
      r1.ceilingColor = some c → r2.ceilingColor = some c →
      (getRoomCeilingMaterialE r1 s1).1 = (getRoomCeilingMaterialE r2 s2).1) ∧
    (∀ (w : Wall α) (i : Nat) (s : ExpState α),
      (getWallMaterialE w i (getWallMaterialE w i s).2).1 =
        (getWallMaterialE w i s).1) ∧
    (∀ (w : Wall α) (i : Nat) (s : ExpState α),
      (getWallRightSideMaterialE w i (getWallRightSideMaterialE w i s).2).1 =
        (getWallRightSideMaterialE w i s).1) ∧
    (∀ (room : Room α) (s : ExpState α),
      (getRoomFloorMaterialE room (getRoomFloorMaterialE room s).2).1 =
        (getRoomFloorMaterialE room s).1) ∧
    (∀ (room : Room α) (s : ExpState α),
      (getRoomCeilingMaterialE room (getRoomCeilingMaterialE room s).2).1 =
        (getRoomCeilingMaterialE room s).1) ∧
    (∀ (b1 u1 b2 u2 : String) (d : List Nat) (s : ExpState α),
      (addTexture b2 u2 d (addTexture b1 u1 d s).2).1 =
        (addTexture b1 u1 d s).1 ∧
      (addTexture b2 u2 d (addTexture b1 u1 d s).2).2 =
        (addTexture b1 u1 d s).2) := by
  refine ⟨getWallMaterialE_color_pure,
    fun w1 w2 i1 i2 s1 s2 c hne =>
      getWallRightSideMaterialE_color_pure w1 w2 i1 i2 s1 s2 c hne,
    getRoomFloorMaterialE_color_pure,
    getRoomCeilingMaterialE_color_pure,
    fun w i s => getWallMaterialE_fst_const w i _ s,
    fun w i s => getWallRightSideMaterialE_fst_const w i _ s,
    fun room s => getRoomFloorMaterialE_fst_const room _ s,
    fun room s => getRoomCeilingMaterialE_fst_const room _ s,
    ?_⟩
  intro b1 u1 b2 u2 d s
  rcases h1 : findDuplicateTexture d s with _ | nm
  · have h1' : s.textures.find? (fun p => p.2 == d) = none := by
      unfold findDuplicateTexture at h1
      exact Option.map_eq_none'.mp h1
    have key := find_payload_mapSet s.textures
      (generateUniqueTextureName b1 (getTextureExtension u1) s) h1'
    constructor <;>
      simp [addTexture, findDuplicateTexture, h1', key]
  · constructor <;> simp [addTexture, h1]

/-- Witness for the amended claim C3: two walls differing in every
field and index but sharing the left colour `0xFF0000` resolve, in
different states, to one and the same material name. -/
theorem claim_C3_material_dedup_witness :
    ((⟨0, 0, 100, 0, 250, 10, some 16711680, none, none, none⟩ :
        Wall ℚ).leftTexture = none ∧
     (⟨0, 0, 100, 0, 250, 10, some 16711680, none, none, none⟩ :
        Wall ℚ).leftColor = some 16711680 ∧
     (⟨5, 5, 9, 2, 300, 20, some 16711680, some 255, none, none⟩ :
        Wall ℚ).leftTexture = none ∧
     (⟨5, 5, 9, 2, 300, 20, some 16711680, some 255, none, none⟩ :
        Wall ℚ).leftColor = some 16711680) ∧
    (getWallMaterialE
        (⟨0, 0, 100, 0, 250, 10, some 16711680, none, none, none⟩ : Wall ℚ) 0
        (initState : ExpState ℚ)).1 =
      (getWallMaterialE
        (⟨5, 5, 9, 2, 300, 20, some 16711680, some 255, none, none⟩ : Wall ℚ) 7
        (addVertex ((1 : ℚ), 2, 3) (initState : ExpState ℚ)).2).1 :=
  ⟨⟨rfl, rfl, rfl, rfl⟩,
   (claim_C3_material_dedup (α := ℚ)).1
     ⟨0, 0, 100, 0, 250, 10, some 16711680, none, none, none⟩
     ⟨5, 5, 9, 2, 300, 20, some 16711680, some 255, none, none⟩
     0 7 initState (addVertex ((1 : ℚ), 2, 3) initState).2 16711680
     rfl rfl rfl rfl⟩

/-- Counterexample to claim C3 as stated: the same flat colour
`0xFF0000` resolved through a wall's left side and then through a room
floor yields the two different names `wall_255_0_0` and `floor_255_0_0`
— flat-colour material names are deduplicated per surface kind, not
across kinds. -/
theorem claim_C3_counterexample :
    (getWallMaterialE
        (⟨0, 0, 100, 0, 250, 10, some 16711680, none, none, none⟩ : Wall ℚ) 0
        (initState : ExpState ℚ)).1 ≠
      (getRoomFloorMaterialE (⟨[], "r", some 16711680, none⟩ : Room ℚ)
        (getWallMaterialE
          (⟨0, 0, 100, 0, 250, 10, some 16711680, none, none, none⟩ : Wall ℚ) 0
          (initState : ExpState ℚ)).2).1 := by
  decide

/-! ### Claim C6: zero-geometry failure messages -/

/-- The two zero-geometry messages differ (character 22 is `T` in one
and `F` in the other, before the item count is interpolated). -/
theorem emptyMsg_ne_failMsg (n : Nat) : emptyMsg ≠ failMsg n := by
  intro h
  have hd : emptyMsg.data[22]? = (failMsg n).data[22]? := by rw [h]
  rw [emptyMsg, failMsg, String.data_append, String.data_append] at hd
  have la : ("No geometry exported. Found ").data.length = 28 := rfl
  rw [List.getElem?_append_left (by rw [List.length_append, la]; omega),
    List.getElem?_append_left (by rw [la]; omega)] at hd
  exact absurd hd (by decide)

/-- Claim C6: a processed home with zero vertices makes `exportHome`
fail — with the "home is empty" message when no wall, room or furniture
entry was counted, and with the "items existed but failed" message
(which is a different message for every count) otherwise; a home with
no elements always has zero vertices; any export with at least one
vertex succeeds; and these two messages are the only errors `exportHome`
ever produces. -/
theorem claim_C6_empty_home_errors [FloorRing α] (M : MathFns α)
    (h : Home α) :
    ((processHome M h).vertices.length = 0 →
      exportHomeE M h = .error
        (if h.walls.length + h.rooms.length + h.furniture.length = 0
         then emptyMsg
         else failMsg (h.walls.length + h.rooms.length + h.furniture.length))) ∧
    ((processHome M h).vertices.length ≠ 0 →
      exportHomeE M h = .ok (processHome M h)) ∧
    (h.walls.length + h.rooms.length + h.furniture.length = 0 →
      (processHome M h).vertices.length = 0) ∧
    (∀ n, emptyMsg ≠ failMsg n) ∧
    (∀ e, exportHomeE M h = .error e →
      e = emptyMsg ∨
        e = failMsg (h.walls.length + h.rooms.length + h.furniture.length)) := by
  refine ⟨?_, ?_, ?_, emptyMsg_ne_failMsg, ?_⟩
  · intro h0
    simp only [exportHomeE, if_pos h0]
    split <;> simp
  · intro h0
    simp only [exportHomeE, if_neg h0]
  · intro h0
    have hw : h.walls = [] := List.length_eq_zero.mp (by omega)
    have hr : h.rooms = [] := List.length_eq_zero.mp (by omega)
    have hf : h.furniture = [] := List.length_eq_zero.mp (by omega)
    simp [processHome, hw, hr, hf, initState]
  · intro e he
    simp only [exportHomeE] at he
    split at he
    · split at he
      · injection he with h2
        exact Or.inl h2.symm
      · injection he with h2
        exact Or.inr h2.symm
    · exact absurd he (by simp)

/-- Witness for claim C6: the empty home fails with the empty-home
message; a home whose only entry is a `null` furniture item counts one
item, produces no geometry and fails with the found-but-failed
message. -/
theorem claim_C6_empty_home_errors_witness :
    (processHome realMath (⟨"h", [], [], []⟩ : Home ℝ)).vertices.length = 0 ∧
    exportHomeE realMath (⟨"h", [], [], []⟩ : Home ℝ) = .error emptyMsg ∧
    exportHomeE realMath (⟨"h", [], [], [none]⟩ : Home ℝ) =
      .error (failMsg 1) := by
  have e0 : (processHome realMath (⟨"h", [], [], []⟩ : Home ℝ)).vertices.length = 0 :=
    rfl
  have e1 : (processHome realMath (⟨"h", [], [], [none]⟩ : Home ℝ)).vertices.length = 0 :=
    rfl
  refine ⟨e0, ?_, ?_⟩
  · have hc := (claim_C6_empty_home_errors realMath (⟨"h", [], [], []⟩ : Home ℝ)).1 e0
    simpa using hc
  · have hc := (claim_C6_empty_home_errors realMath
      (⟨"h", [], [], [none]⟩ : Home ℝ)).1 e1
    simpa using hc

/-! ### Claim C4: interrupted integration and the box fallback -/

theorem objStep_usemtl_pools [FloorRing α] (ctx : IntCtx α) (m : String)
    (s : ExpState α) :
    (objStep ctx s (ObjLine.usemtl m)).vertices = s.vertices ∧
    (objStep ctx s (ObjLine.usemtl m)).normals = s.normals ∧
    (objStep ctx s (ObjLine.usemtl m)).texCoords = s.texCoords := by
  simp only [objStep]
  rcases hA : lookupCI ctx.mtlMap m with _ | d
  · simp only [hA]
    rcases hB : lookupCI s.defaultMaterials m with _ | d2
    · simp [hB, setMaterial]
    · simp [hB]
  · simp [hA]

/-- Every second-pass line step only appends to the four geometry
pools. -/
theorem objStep_pools_append [FloorRing α] (ctx : IntCtx α)
    (line : ObjLine α) (s : ExpState α) :
    ∃ tv tn tt tf,
      (objStep ctx s line).vertices = s.vertices ++ tv ∧
      (objStep ctx s line).normals = s.normals ++ tn ∧
      (objStep ctx s line).texCoords = s.texCoords ++ tt ∧
      (objStep ctx s line).faces = s.faces ++ tf := by
  cases line with
  | usemtl m =>
    obtain ⟨h1, h2, h3⟩ := objStep_usemtl_pools ctx m s
    exact ⟨[], [], [], [], by simp [h1], by simp [h2], by simp [h3],
      by simp [objStep_usemtl_faces]⟩
  | v x y z => exact ⟨_, [], [], [], rfl, by simp [objStep], by simp [objStep],
      by simp [objStep]⟩
  | vn x y z => exact ⟨[], _, [], [], by simp [objStep], rfl,
      by simp [objStep], by simp [objStep]⟩
  | vt u w => exact ⟨[], [], _, [], by simp [objStep], by simp [objStep], rfl,
      by simp [objStep]⟩
  | f ws => exact ⟨[], [], [], _, by simp [objStep], by simp [objStep],
      by simp [objStep], rfl⟩
  | mtllib m => exact ⟨[], [], [], [], by simp [objStep], by simp [objStep],
      by simp [objStep], by simp [objStep]⟩
  | comment c => exact ⟨[], [], [], [], by simp [objStep], by simp [objStep],
      by simp [objStep], by simp [objStep]⟩
  | blank => exact ⟨[], [], [], [], by simp [objStep], by simp [objStep],
      by simp [objStep], by simp [objStep]⟩

theorem foldl_objStep_pools_append [FloorRing α] (ctx : IntCtx α)
    (ls : List (ObjLine α)) (s : ExpState α) :
    ∃ tv tn tt tf,
      (ls.foldl (objStep ctx) s).vertices = s.vertices ++ tv ∧
      (ls.foldl (objStep ctx) s).normals = s.normals ++ tn ∧
      (ls.foldl (objStep ctx) s).texCoords = s.texCoords ++ tt ∧
      (ls.foldl (objStep ctx) s).faces = s.faces ++ tf := by
  induction ls generalizing s with
  | nil => exact ⟨[], [], [], [], by simp, by simp, by simp, by simp⟩
  | cons l ls ih =>
    obtain ⟨a1, a2, a3, a4, e1, e2, e3, e4⟩ := objStep_pools_append ctx l s
    obtain ⟨b1, b2, b3, b4, f1, f2, f3, f4⟩ := ih (objStep ctx s l)
    exact ⟨a1 ++ b1, a2 ++ b2, a3 ++ b3, a4 ++ b4,
      by simp [f1, e1], by simp [f2, e2], by simp [f3, e3], by simp [f4, e4]⟩

theorem integrateSetup_pools (co : Option Nat) (base : String)
    (s : ExpState α) :
    (integrateSetup co base s).vertices = s.vertices ∧
    (integrateSetup co base s).normals = s.normals ∧
    (integrateSetup co base s).texCoords = s.texCoords ∧
    (integrateSetup co base s).faces = s.faces := by
  rcases co with _ | cv <;> simp [integrateSetup, setMaterial]

theorem addTriangle_faces_len_any (v1 v2 v3 n : Vec3 α) (s : ExpState α) :
    (addTriangle v1 v2 v3 n s).faces.length = s.faces.length + 1 :=
  addTriangle_faces_len v1 v2 v3 n s

/-- The bounding-box fallback always pushes exactly twelve faces (six
quads). -/
theorem box_faces_len (M : MathFns α) (p : Piece α) (base : String)
    (s : ExpState α) :
    (exportFurnitureBoundingBox M p base s).faces.length =
      s.faces.length + 12 := by
  rcases hc : p.color with _ | cv <;>
    simp only [exportFurnitureBoundingBox, hc, addQuad_faces_len, setMaterial]

/-- Claim C4 (amended): the line-by-line second pass of
`integrateOBJContent` only ever appends to the vertex/normal/UV/face
pools, so an integration that fails after `k` lines leaves exactly the
geometry committed by those first `k` lines in the accumulator (there is
no rollback — see the counterexample for a failing run that leaves a
vertex behind); the box fallback then runs on that partially-integrated
state, appending its six quads (twelve faces) on top; and the failure
never aborts the export — `exportHome`'s only errors are the two
zero-geometry messages. -/
theorem claim_C4_interrupted_integration [FloorRing α] :
    (∀ (M : MathFns α) (lines : List (ObjLine α)) (k : Nat)
      (p : PieceGeom α) (co : Option Nat) (base : String)
      (mm : List (String × MtlData α)) (s : ExpState α),
      ∃ tv tn tt tf,
        (integrateUpTo M lines k p co base mm s).vertices = s.vertices ++ tv ∧
        (integrateUpTo M lines k p co base mm s).normals = s.normals ++ tn ∧
        (integrateUpTo M lines k p co base mm s).texCoords = s.texCoords ++ tt ∧
        (integrateUpTo M lines k p co base mm s).faces = s.faces ++ tf) ∧
    (∀ (M : MathFns α) (i : Nat) (g : PieceGeom α) (c : Option Nat)
      (lines : List (ObjLine α)) (k : Nat) (s : ExpState α),
      (exportFurnitureE M i ⟨g, c, LoadOutcome.interrupted lines k⟩ s).faces.length =
        (integrateUpTo M lines k g c ("furniture_furniture_" ++ toString i)
          [] s).faces.length + 12) ∧
    (∀ (M : MathFns α) (h : Home α) (e : String), exportHomeE M h = .error e →
      e = emptyMsg ∨
        e = failMsg (h.walls.length + h.rooms.length + h.furniture.length)) := by
  refine ⟨?_, ?_, ?_⟩
  · intro M lines k p co base mm s
    obtain ⟨i1, i2, i3, i4⟩ := integrateSetup_pools (α := α) co base s
    obtain ⟨b1, b2, b3, b4, f1, f2, f3, f4⟩ :=
      foldl_objStep_pools_append (mkIntCtx M lines p mm base s) (lines.take k)
        (integrateSetup co base s)
    exact ⟨b1, b2, b3, b4,
      by simp only [integrateUpTo]; rw [f1, i1],
      by simp only [integrateUpTo]; rw [f2, i2],
      by simp only [integrateUpTo]; rw [f3, i3],
      by simp only [integrateUpTo]; rw [f4, i4]⟩
  · intro M i g c lines k s
    exact box_faces_len M _ _ _
  · intro M h e he
    simp only [exportHomeE] at he
    split at he
    · split at he
      · injection he with h2
        exact Or.inl h2.symm
      · injection he with h2
        exact Or.inr h2.symm
    · exact absurd he (by simp)

/-- Counterexample to claim C4 as stated: an integration that fails
after the first of two vertex lines leaves that vertex committed — the
accumulator is not "as it was before the attempt". -/
theorem claim_C4_counterexample :
    (integrateUpTo qMathFns [ObjLine.v 1 2 3, ObjLine.v 4 5 6] 1
        (⟨0, 0, 0, 0, 1, 1, 1⟩ : PieceGeom ℚ) none "furniture_furniture_0" []
        (initState : ExpState ℚ)).vertices ≠
      (initState : ExpState ℚ).vertices := by
  decide

/-- Witness for the amended claim C4's abort conjunct at the empty
home. -/
theorem claim_C4_interrupted_integration_witness :
    exportHomeE qMathFns (⟨"h", [], [], []⟩ : Home ℚ) = .error emptyMsg ∧
    (emptyMsg = emptyMsg ∨ emptyMsg = failMsg 0) :=
  ⟨rfl,
   (claim_C4_interrupted_integration.2.2 qMathFns (⟨"h", [], [], []⟩ : Home ℚ)
     emptyMsg rfl)⟩

/-! ### Claim C7: serialising and re-parsing the pools -/

theorem objStep_comment [FloorRing α] (ctx : IntCtx α) (s : ExpState α)
    (c : String) : objStep ctx s (ObjLine.comment c) = s := rfl

theorem objStep_blank [FloorRing α] (ctx : IntCtx α) (s : ExpState α) :
    objStep ctx s ObjLine.blank = s := rfl

theorem objStep_f_vertices [FloorRing α] (ctx : IntCtx α) (s : ExpState α)
    (ws : List FaceWord) :
    (objStep ctx s (ObjLine.f ws)).vertices = s.vertices := by
  simp [objStep]

theorem objStep_faceLine_vertices [FloorRing α] (ctx : IntCtx α)
    (s : ExpState α) (f : Face) :
    (objStep ctx s (faceLine (α := α) f)).vertices = s.vertices := by
  simp only [faceLine]
  exact objStep_f_vertices _ _ _

/-- Lines that touch neither the vertex pool nor the face list. -/
def noGeomLine : ObjLine α → Prop
  | .v _ _ _ => False
  | .f _ => False
  | _ => True

theorem foldl_noGeom_pres [FloorRing α] (ctx : IntCtx α)
    (ls : List (ObjLine α)) (h : ∀ l ∈ ls, noGeomLine l) (s : ExpState α) :
    ((ls.foldl (objStep ctx) s).vertices = s.vertices ∧
      (ls.foldl (objStep ctx) s).faces = s.faces) := by
  induction ls generalizing s with
  | nil => exact ⟨rfl, rfl⟩
  | cons l ls ih =>
    have hstep : (objStep ctx s l).vertices = s.vertices ∧
        (objStep ctx s l).faces = s.faces := by
      cases l with
      | v x y z => exact absurd (h _ (List.mem_cons_self _ _)) (by simp [noGeomLine])
      | f ws => exact absurd (h _ (List.mem_cons_self _ _)) (by simp [noGeomLine])
      | vn x y z => exact ⟨by simp [objStep], by simp [objStep]⟩
      | vt u w => exact ⟨by simp [objStep], by simp [objStep]⟩
      | usemtl m => exact ⟨(objStep_usemtl_pools ctx m s).1, objStep_usemtl_faces ctx m s⟩
      | mtllib m => exact ⟨rfl, rfl⟩
      | comment c => exact ⟨rfl, rfl⟩
      | blank => exact ⟨rfl, rfl⟩
    obtain ⟨e1, e2⟩ := ih (fun l hl => h l (List.mem_cons_of_mem _ hl)) (objStep ctx s l)
    exact ⟨e1.trans hstep.1, e2.trans hstep.2⟩

/-- Under the identity parse context a `v` line appends its coordinates
unchanged. -/
theorem objStep_idCtx_v [FloorRing α] (s : ExpState α) (x y z : α) :
    objStep idCtx s (ObjLine.v x y z) =
      { s with vertices := s.vertices ++ [(x, y, z)],
               vertexIndex := s.vertexIndex + 1 } := by
  simp [objStep, idCtx]

theorem parse_v_section [FloorRing α] (vl : List (Vec3 α)) (s : ExpState α) :
    ((vl.map (fun v => ObjLine.v v.1 v.2.1 v.2.2)).foldl (objStep idCtx) s) =
      { s with vertices := s.vertices ++ vl,
               vertexIndex := s.vertexIndex + vl.length } := by
  induction vl generalizing s with
  | nil => simp
  | cons v vl ih =>
    simp only [List.map_cons, List.foldl_cons, objStep_idCtx_v, ih]
    congr 1
    · simp
    · simp only [List.length_cons]
      omega

/-- Positivity of an optional OBJ reference. -/
def optPos : Option ℤ → Prop
  | none => True
  | some i => 0 < i

instance (o : Option ℤ) : Decidable (optPos o) :=
  match o with
  | none => isTrue trivial
  | some i => inferInstanceAs (Decidable (0 < i))

/-- All references of a face are 1-based forward references. -/
def FaceRefsPos (f : Face) : Prop :=
  0 < f.v.1 ∧ 0 < f.v.2.1 ∧ 0 < f.v.2.2 ∧
  optPos f.n.1 ∧ optPos f.n.2.1 ∧ optPos f.n.2.2 ∧
  optPos f.t.1 ∧ optPos f.t.2.1 ∧ optPos f.t.2.2

instance (f : Face) : Decidable (FaceRefsPos f) := by
  unfold FaceRefsPos
  infer_instance

/-- Re-parsing the serialised line of a uniform, positively-referenced
face appends a face with identical connectivity. -/
theorem objStep_idCtx_faceLine_conn [FloorRing α] (s : ExpState α) (f : Face)
    (hok : FaceOK f) (hpos : FaceRefsPos f) :
    (objStep idCtx s (faceLine (α := α) f)).faces.map faceConn =
      s.faces.map faceConn ++ [faceConn f] := by
  obtain ⟨⟨v1, v2, v3⟩, ⟨n1, n2, n3⟩, ⟨t1, t2, t3⟩, fm⟩ := f
  obtain ⟨hv1, hv2, hv3, hn1, hn2, hn3, ht1, ht2, ht3⟩ := hpos
  obtain ⟨hN, hT⟩ := hok
  rcases hN with ⟨hN1, hN2, hN3⟩ | ⟨hN1, hN2, hN3⟩ <;>
    rcases hT with ⟨hT1, hT2, hT3⟩ | ⟨hT1, hT2, hT3⟩ <;>
    simp only at hN1 hN2 hN3 hT1 hT2 hT3
  · obtain ⟨a1, ha1⟩ := Option.isSome_iff_exists.mp hN1
    obtain ⟨a2, ha2⟩ := Option.isSome_iff_exists.mp hN2
    obtain ⟨a3, ha3⟩ := Option.isSome_iff_exists.mp hN3
    obtain ⟨b1, hb1⟩ := Option.isSome_iff_exists.mp hT1
    obtain ⟨b2, hb2⟩ := Option.isSome_iff_exists.mp hT2
    obtain ⟨b3, hb3⟩ := Option.isSome_iff_exists.mp hT3
    subst ha1 ha2 ha3 hb1 hb2 hb3
    simp only [optPos] at hn1 hn2 hn3 ht1 ht2 ht3
    simp [objStep, faceLine, resolveWord, resolveIdx, mkFaceFrom, faceConn,
      idCtx, hv1, hv2, hv3, hn1, hn2, hn3, ht1, ht2, ht3]
  · obtain ⟨a1, ha1⟩ := Option.isSome_iff_exists.mp hN1
    obtain ⟨a2, ha2⟩ := Option.isSome_iff_exists.mp hN2
    obtain ⟨a3, ha3⟩ := Option.isSome_iff_exists.mp hN3
    subst ha1 ha2 ha3 hT1 hT2 hT3
    simp only [optPos] at hn1 hn2 hn3
    simp [objStep, faceLine, resolveWord, resolveIdx, mkFaceFrom, faceConn,
      idCtx, hv1, hv2, hv3, hn1, hn2, hn3]
  · obtain ⟨b1, hb1⟩ := Option.isSome_iff_exists.mp hT1
    obtain ⟨b2, hb2⟩ := Option.isSome_iff_exists.mp hT2
    obtain ⟨b3, hb3⟩ := Option.isSome_iff_exists.mp hT3
    subst hb1 hb2 hb3 hN1 hN2 hN3
    simp only [optPos] at ht1 ht2 ht3
    simp [objStep, faceLine, resolveWord, resolveIdx, mkFaceFrom, faceConn,
      idCtx, hv1, hv2, hv3, ht1, ht2, ht3]
  · subst hN1 hN2 hN3 hT1 hT2 hT3
    simp [objStep, faceLine, resolveWord, resolveIdx, mkFaceFrom, faceConn,
      idCtx, hv1, hv2, hv3]

/-- Re-parsing the serialised face section recovers each face's
connectivity in order (material switches only affect the parser's
current material, which connectivity ignores). -/
theorem parse_faces_section [FloorRing α] (faces : List Face)
    (cur : Option String) (s : ExpState α)
    (h : ∀ f ∈ faces, FaceOK f ∧ FaceRefsPos f) :
    ((serializeFaces cur faces).foldl (objStep (α := α) idCtx) s).vertices =
      s.vertices ∧
    ((serializeFaces cur faces).foldl (objStep (α := α) idCtx) s).faces.map
        faceConn = s.faces.map faceConn ++ faces.map faceConn := by
  induction faces generalizing cur s with
  | nil => exact ⟨rfl, by simp [serializeFaces]⟩
  | cons f fs ih =>
    have hpre : ∀ l ∈ (if f.material ≠ cur then
        [ObjLine.blank (α := α), ObjLine.usemtl (f.material.getD "null")]
        else []), noGeomLine l := by
      split
      · intro l hl
        simp only [List.mem_cons, List.not_mem_nil, or_false] at hl
        rcases hl with rfl | rfl <;> trivial
      · intro l hl
        exact absurd hl (List.not_mem_nil l)
    obtain ⟨p1, p2⟩ := foldl_noGeom_pres idCtx _ hpre s
    have hf1 := (h f (List.mem_cons_self f fs)).1
    have hf2 := (h f (List.mem_cons_self f fs)).2
    obtain ⟨q1, q2⟩ := ih f.material
      (objStep idCtx ((if f.material ≠ cur then
        [ObjLine.blank (α := α), ObjLine.usemtl (f.material.getD "null")]
        else []).foldl (objStep idCtx) s) (faceLine f))
      (fun g hg => h g (List.mem_cons_of_mem f hg))
    constructor
    · rw [serializeFaces, List.foldl_append, List.foldl_cons, q1,
        objStep_faceLine_vertices]
      exact p1
    · rw [serializeFaces, List.foldl_append, List.foldl_cons, q2,
        objStep_idCtx_faceLine_conn _ f hf1 hf2, p2]
      simp

/-- Serialise-then-parse, without assumptions on the vertex values: the
re-parsed vertex pool is the original one with every coordinate passed
through the `toFixed(7)` value `fmtVal`, and face connectivity is
recovered index for index. -/
theorem parse_build_spec [FloorRing α] (st : ExpState α)
    (hf : ∀ f ∈ st.faces, FaceOK f ∧ FaceRefsPos f) :
    (parseOBJ (buildOBJContent st)).vertices =
      st.vertices.map
        (fun v => ((fmtVal v.1, fmtVal v.2.1, fmtVal v.2.2) : Vec3 α)) ∧
    (parseOBJ (buildOBJContent st)).faces.map faceConn =
      st.faces.map faceConn := by
  have hmap : st.vertices.map
      (fun v => ObjLine.v (α := α) (fmtVal v.1) (fmtVal v.2.1) (fmtVal v.2.2)) =
      (st.vertices.map
        (fun v => ((fmtVal v.1, fmtVal v.2.1, fmtVal v.2.2) : Vec3 α))).map
        (fun v => ObjLine.v v.1 v.2.1 v.2.2) := by
    simp [List.map_map, Function.comp_def]
  have hsecN : ∀ l ∈ st.normals.map
      (fun n => ObjLine.vn (α := α) (fmtVal n.1) (fmtVal n.2.1) (fmtVal n.2.2)),
      noGeomLine l := by
    intro l hl
    obtain ⟨n, _, rfl⟩ := List.mem_map.mp hl
    trivial
  have hsecT : ∀ l ∈ (if st.texCoords.length = 0 then ([] : List (ObjLine α))
      else [ObjLine.comment ("Texture coordinates: " ++ toString st.texCoords.length)]
        ++ st.texCoords.map (fun tc => ObjLine.vt (fmtVal tc.1) (fmtVal tc.2))
        ++ [ObjLine.blank]), noGeomLine l := by
    split
    · intro l hl
      exact absurd hl (List.not_mem_nil l)
    · intro l hl
      simp only [List.mem_append, List.mem_singleton, List.mem_map] at hl
      rcases hl with (rfl | ⟨tc, _, rfl⟩) | rfl <;> trivial
  unfold parseOBJ buildOBJContent
  rw [hmap]
  simp only [List.foldl_append, List.foldl_cons, List.foldl_nil,
    objStep_comment, objStep_blank]
  rw [parse_v_section]
  obtain ⟨eN1, eN2⟩ := foldl_noGeom_pres (α := α) idCtx
    (st.normals.map (fun n => ObjLine.vn (fmtVal n.1) (fmtVal n.2.1) (fmtVal n.2.2)))
    hsecN
    { initState (α := α) with
        vertices := (initState (α := α)).vertices ++
          st.vertices.map
            (fun v => ((fmtVal v.1, fmtVal v.2.1, fmtVal v.2.2) : Vec3 α)),
        vertexIndex := (initState (α := α)).vertexIndex +
          (st.vertices.map
            (fun v => ((fmtVal v.1, fmtVal v.2.1, fmtVal v.2.2) : Vec3 α))).length }
  obtain ⟨eT1, eT2⟩ := foldl_noGeom_pres (α := α) idCtx
    (if st.texCoords.length = 0 then ([] : List (ObjLine α))
      else [ObjLine.comment ("Texture coordinates: " ++ toString st.texCoords.length)]
        ++ st.texCoords.map (fun tc => ObjLine.vt (fmtVal tc.1) (fmtVal tc.2))
        ++ [ObjLine.blank])
    hsecT
    ((st.normals.map
        (fun n => ObjLine.vn (fmtVal n.1) (fmtVal n.2.1) (fmtVal n.2.2))).foldl
      (objStep idCtx)
      { initState (α := α) with
          vertices := (initState (α := α)).vertices ++
            st.vertices.map
              (fun v => ((fmtVal v.1, fmtVal v.2.1, fmtVal v.2.2) : Vec3 α)),
          vertexIndex := (initState (α := α)).vertexIndex +
            (st.vertices.map
              (fun v => ((fmtVal v.1, fmtVal v.2.1, fmtVal v.2.2) : Vec3 α))).length })
  obtain ⟨eF1, eF2⟩ := parse_faces_section (α := α) st.faces none _ hf
  constructor
  · rw [eF1, eT1, eN1]
    simp [initState]
  · rw [eF2, eT2, eN2]
    simp [initState]

/-- Claim C7 (amended): serialising accumulated pools to the OBJ text
grammar and re-parsing that text with the exporter's own face-reference
rules recovers the face connectivity index for index, and recovers the
vertex positions exactly whenever every coordinate survives the 7-digit
`toFixed` formatting (is an integer multiple of 10⁻⁷); a coordinate that
does not survive it is altered — see the counterexample. -/
theorem claim_C7_round_trip [FloorRing α] (st : ExpState α)
    (hv : ∀ v ∈ st.vertices,
      fmtVal v.1 = v.1 ∧ fmtVal v.2.1 = v.2.1 ∧ fmtVal v.2.2 = v.2.2)
    (hf : ∀ f ∈ st.faces, FaceOK f ∧ FaceRefsPos f) :
    (parseOBJ (buildOBJContent st)).vertices = st.vertices ∧
    (parseOBJ (buildOBJContent st)).faces.map faceConn =
      st.faces.map faceConn := by
  obtain ⟨h1, h2⟩ := parse_build_spec st hf
  refine ⟨?_, h2⟩
  rw [h1]
  have hid : ∀ v ∈ st.vertices,
      ((fmtVal v.1, fmtVal v.2.1, fmtVal v.2.2) : Vec3 α) = id v := by
    intro v hvv
    obtain ⟨e1, e2, e3⟩ := hv v hvv
    simp [e1, e2, e3]
  rw [List.map_congr_left hid, List.map_id]

/-- Counterexample to claim C7 as stated: a vertex coordinate of `10⁻⁸`
serialises through `toFixed(7)` as `0.0000000`, so re-parsing yields the
origin, not the original position — the round trip is not the identity
on arbitrary states. -/
theorem claim_C7_counterexample :
    (parseOBJ (buildOBJContent
        ({ initState with
            vertices := [((1 : ℚ) / 100000000, 0, 0)],
            vertexIndex := 2 } : ExpState ℚ))).vertices ≠
      [((1 : ℚ) / 100000000, 0, 0)] := by
  have hr : round (((1 : ℚ) / 100000000) * 10 ^ 7) = 0 := by
    rw [round_eq]
    norm_num [Int.floor_eq_iff]
  have h8 : fmtVal ((1 : ℚ) / 100000000) = 0 := by
    unfold fmtVal
    rw [hr]
    norm_num
  intro hcontra
  rw [(parse_build_spec _ (by decide)).1] at hcontra
  simp only [List.map_cons, List.map_nil, List.cons.injEq, Prod.mk.injEq]
    at hcontra
  have h1 := hcontra.1.1
  rw [h8] at h1
  norm_num at h1

/-- Witness for the amended claim C7 on a concrete pool: one exactly
representable vertex and one vertex-only face. -/
theorem claim_C7_round_trip_witness :
    (∀ v ∈ ({ initState with
        vertices := [(((1 : ℚ) / 2, 3, 2) : Vec3 ℚ)],
        vertexIndex := 2,
        faces := [⟨(1, 1, 1), (none, none, none), (none, none, none),
          some "m"⟩] } : ExpState ℚ).vertices,
      fmtVal v.1 = v.1 ∧ fmtVal v.2.1 = v.2.1 ∧ fmtVal v.2.2 = v.2.2) ∧
    (∀ f ∈ ({ initState with
        vertices := [(((1 : ℚ) / 2, 3, 2) : Vec3 ℚ)],
        vertexIndex := 2,
        faces := [⟨(1, 1, 1), (none, none, none), (none, none, none),
          some "m"⟩] } : ExpState ℚ).faces, FaceOK f ∧ FaceRefsPos f) ∧
    ((parseOBJ (buildOBJContent ({ initState with
        vertices := [(((1 : ℚ) / 2, 3, 2) : Vec3 ℚ)],
        vertexIndex := 2,
        faces := [⟨(1, 1, 1), (none, none, none), (none, none, none),
          some "m"⟩] } : ExpState ℚ))).vertices =
      ({ initState with
        vertices := [(((1 : ℚ) / 2, 3, 2) : Vec3 ℚ)],
        vertexIndex := 2,
        faces := [⟨(1, 1, 1), (none, none, none), (none, none, none),
          some "m"⟩] } : ExpState ℚ).vertices ∧
     (parseOBJ (buildOBJContent ({ initState with
        vertices := [(((1 : ℚ) / 2, 3, 2) : Vec3 ℚ)],
        vertexIndex := 2,
        faces := [⟨(1, 1, 1), (none, none, none), (none, none, none),
          some "m"⟩] } : ExpState ℚ))).faces.map faceConn =
      ({ initState with
        vertices := [(((1 : ℚ) / 2, 3, 2) : Vec3 ℚ)],
        vertexIndex := 2,
        faces := [⟨(1, 1, 1), (none, none, none), (none, none, none),
          some "m"⟩] } : ExpState ℚ).faces.map faceConn) := by
  have hv : ∀ v ∈ [(((1 : ℚ) / 2, 3, 2) : Vec3 ℚ)],
      fmtVal v.1 = v.1 ∧ fmtVal v.2.1 = v.2.1 ∧ fmtVal v.2.2 = v.2.2 := by
    intro v hvm
    have hveq : v = (((1 : ℚ) / 2, 3, 2) : Vec3 ℚ) := by simpa using hvm
    subst hveq
    refine ⟨?_, ?_, ?_⟩
    · unfold fmtVal
      rw [show ((1 : ℚ) / 2) * 10 ^ 7 = ((5000000 : ℤ) : ℚ) by norm_num,
        round_intCast]
      norm_num
    · unfold fmtVal
      rw [show ((3 : ℚ)) * 10 ^ 7 = ((30000000 : ℤ) : ℚ) by norm_num,
        round_intCast]
      norm_num
    · unfold fmtVal
      rw [show ((2 : ℚ)) * 10 ^ 7 = ((20000000 : ℤ) : ℚ) by norm_num,
        round_intCast]
      norm_num
  exact ⟨hv, by decide, claim_C7_round_trip _ hv (by decide)⟩

/-! ### Claim C8: output determinism and the dated header lines -/

/-- Claim C8 (amended): for a fixed home the exported OBJ and MTL texts
are pure functions of the clock reading alone — removing the single
`# Date:` line (index 2 of the OBJ text, index 1 of the MTL text) makes
the outputs of any two runs identical, error or not. -/
theorem claim_C8_output_dates [FloorRing α] (M : MathFns α) (h : Home α)
    (d1 d2 : String) :
    (outputOBJ M h d1).map (fun ls => ls.eraseIdx 2) =
      (outputOBJ M h d2).map (fun ls => ls.eraseIdx 2) ∧
    (outputMTL M h d1).map (fun ls => ls.eraseIdx 1) =
      (outputMTL M h d2).map (fun ls => ls.eraseIdx 1) := by
  unfold outputOBJ outputMTL
  cases hE : exportHomeE M h with
  | error e => exact ⟨rfl, rfl⟩
  | ok s => exact ⟨rfl, rfl⟩

/-- Counterexample to claim C8 as stated: two runs over the same home
read different clock values, and the OBJ text's third line (`# Date:`)
then differs, so the two OBJ outputs are not byte-identical. -/
theorem claim_C8_counterexample :
    ((outputOBJ (α := ℚ) qMathFns
        ⟨"h", [], [some ⟨[(0, 0), (4, 0), (0, 3)], "r", none, none⟩], []⟩
        "2025-01-01T00:00:00.000Z").toOption.map (fun ls => ls.get? 2)) ≠
      ((outputOBJ (α := ℚ) qMathFns
        ⟨"h", [], [some ⟨[(0, 0), (4, 0), (0, 3)], "r", none, none⟩], []⟩
        "2025-01-02T00:00:00.000Z").toOption.map (fun ls => ls.get? 2)) := by
  have hlen : (processHome (α := ℚ) qMathFns
      ⟨"h", [], [some ⟨[(0, 0), (4, 0), (0, 3)], "r", none, none⟩],
        []⟩).vertices.length = 6 := by
    simp [processHome, exportRoom, getRoomFloorMaterialE,
      getRoomCeilingMaterialE, triangulatePolygon, addTriangle_vertices_len,
      setMaterial_geom, initState]
  have hok : ∀ d : String,
      ((outputOBJ (α := ℚ) qMathFns
        ⟨"h", [], [some ⟨[(0, 0), (4, 0), (0, 3)], "r", none, none⟩], []⟩
        d).toOption.map (fun ls => ls.get? 2)) =
      some (some (ObjLine.comment ("Date: " ++ d))) := by
    intro d
    simp only [outputOBJ, exportHomeE]
    rw [if_neg (by simp only [hlen]; decide)]
    rfl
  rw [hok, hok]
  intro hcontra
  simp only [Option.some.injEq, ObjLine.comment.injEq] at hcontra
  exact absurd hcontra (by decide)

end OBJE
